import Mathlib

/-!
Verification of the mapping-driven ETL transformation engine
(`src/utils/dimesions.py`, `src/utils/fact.py`, `src/utils/airport_distance.py`,
`src/utils/transformer.py`) against its natural-language specification.

The Python code is shallowly embedded: pandas DataFrames become typed row
lists (structured records mirror the destination star-schema tables, since
the loader supplies tables with exactly those columns) or, where a claim
quantifies over arbitrary tables and column names, a generic `Table` of
association-list rows.  Python scalars become the inductive `PyVal`
(`None`/NaN are conflated into `vnull`; no claim distinguishes them).
Code that can raise (`float(...)`, `int(...)`, missing-column access,
missing mapping keys, `.to_excel` on `None`) is embedded in
`Except String`.  `pd.Timestamp.now()` is threaded as an explicit `now`
parameter; the external geodesic kernel (geopy) and the external pandas
date parser (`pd.to_datetime`) are passed as function parameters, since
they are third-party library code, not code of this repository.
-/

/-- Embedding of the Python scalar values that flow through the engine.
`vnull` stands for Python `None` (and pandas `NaN`, which no claim
distinguishes from `None`); `vdate` stands for a pandas `Timestamp`
(time-of-day components are irrelevant to every function modelled here,
which only ever read year/month/day). -/
inductive PyVal where
  | vnull : PyVal
  | vint (n : ℤ) : PyVal
  | vfloat (q : ℚ) : PyVal
  | vstr (s : String) : PyVal
  | vdate (year month day : ℕ) : PyVal
deriving DecidableEq, Repr

/-- Left-pad the decimal rendering of `n` with zeros to width `w`
(the behaviour of `strftime` numeric fields such as `%Y`, `%m`, `%d`). -/
def padNum (w : ℕ) (n : ℕ) : String :=
  let s := toString n
  String.mk (List.replicate (w - s.length) '0') ++ s

/-- ASCII lower-casing of a character (`str.lower()`; every value the
engine compares case-insensitively is ASCII). -/
def charLower (c : Char) : Char :=
  if 'A' ≤ c ∧ c ≤ 'Z' then Char.ofNat (c.toNat + 32) else c

/-- ASCII upper-casing of a character (`str.upper()`). -/
def charUpper (c : Char) : Char :=
  if 'a' ≤ c ∧ c ≤ 'z' then Char.ofNat (c.toNat - 32) else c

/-- Python `s.lower()`. -/
def strLower (s : String) : String := String.mk (s.toList.map charLower)

/-- Python `s.upper()`. -/
def strUpper (s : String) : String := String.mk (s.toList.map charUpper)

/-- Python `s.strip()`: drop leading and trailing whitespace. -/
def strTrim (s : String) : String :=
  String.mk
    (((s.toList.dropWhile Char.isWhitespace).reverse.dropWhile
      Char.isWhitespace).reverse)

/-- Python `s.endswith(suffix)`. -/
def strEndsWith (s suffix : String) : Bool :=
  decide (suffix.toList <:+ s.toList)

/-- Value of a digit string. -/
def digitsVal (cs : List Char) : ℕ :=
  cs.foldl (fun a c => a * 10 + (c.toNat - 48)) 0

/-- Python `int(str)`: optional surrounding whitespace, optional sign,
then decimal digits; `none` models the `ValueError` raise. -/
def strToInt? (s : String) : Option ℤ :=
  let t := (strTrim s).toList
  let sp : Bool × List Char := match t with
    | '+' :: r => (false, r)
    | '-' :: r => (true, r)
    | r => (false, r)
  if sp.2 ≠ [] ∧ sp.2.all Char.isDigit then
    some (if sp.1 then -(digitsVal sp.2 : ℤ) else (digitsVal sp.2 : ℤ))
  else none

/-- Python `str(...)` on the embedded scalars.  `str(None) = "None"`.
The renderings of floats and timestamps abstract Python's `repr`; no claim
compares the string representation of a float or timestamp cell. -/
def pyStr : PyVal → String
  | .vnull => "None"
  | .vint n => toString n
  | .vfloat q => toString q
  | .vstr s => s
  | .vdate y m d => padNum 4 y ++ "-" ++ padNum 2 m ++ "-" ++ padNum 2 d

/-- Python truthiness of the embedded scalars (`if value:`). -/
def pyTruthy : PyVal → Bool
  | .vnull => false
  | .vint n => n ≠ 0
  | .vfloat q => q ≠ 0
  | .vstr s => s ≠ ""
  | .vdate _ _ _ => true

/-- Python `sub in s` substring containment on strings. -/
def pyIn (sub s : String) : Bool := decide (sub.toList <:+: s.toList)

/-- The case-insensitive comparison performed by the lookup service:
`a.lower() == b.lower()`. -/
def lowerEq (a b : String) : Bool := strLower a == strLower b

/-- A generic pandas DataFrame: a column list plus association-list rows
(each row maps a column name to a cell).  Used where claims quantify over
arbitrary tables and column names. -/
structure Table where
  cols : List String
  rows : List (List (String × PyVal))
deriving DecidableEq, Repr

/-- Reading a cell of a row (missing key gives `NaN`, i.e. `vnull`). -/
def rowGet (r : List (String × PyVal)) (c : String) : PyVal :=
  ((r.find? (fun p => p.1 == c)).map (·.2)).getD PyVal.vnull

/-- `src/utils/fact.py`, `lookup_value`: generic dimension-table lookup.
Mirrors the code line by line: an empty frame or a `None` lookup value
returns `None` before any column is touched; otherwise `df[lookup_column]`
and then `df.loc[mask, return_column]` raise `KeyError` for a missing
column; otherwise the `return_column` cell of the first row whose
`lookup_column` cell, converted with `str(...).lower()`, equals the
converted lookup value (`None` when no row matches). -/
def lookup_value (df : Table) (lookup_column : String) (lv : PyVal)
    (return_column : String) : Except String PyVal :=
  if df.rows.isEmpty || lv == PyVal.vnull then
    .ok PyVal.vnull
  else if ¬ (lookup_column ∈ df.cols) then
    .error ("KeyError: " ++ lookup_column)
  else if ¬ (return_column ∈ df.cols) then
    .error ("KeyError: " ++ return_column)
  else
    match df.rows.find? (fun r => lowerEq (pyStr (rowGet r lookup_column)) (pyStr lv)) with
    | some r => .ok (rowGet r return_column)
    | none => .ok PyVal.vnull

/-- A row of a natural-key dimension table as read and written by
`transform_dimension` (`src/utils/dimesions.py`): a surrogate id column, a
natural-value column and the two timestamp columns. -/
structure DimRow where
  id : ℤ
  value : String
  created_at : ℕ
  updated_at : ℕ
deriving DecidableEq, Repr

/-- `max` of the id column of a non-empty dimension table. -/
def maxId (r : DimRow) (rs : List DimRow) : ℤ :=
  rs.foldl (fun m x => max m x.id) r.id

/-- `src/utils/dimesions.py`, `transform_dimension`: upsert of one literal
value into a dimension table.  `df[value_column].str.contains(source_value)`
is a containment test of `source_value` inside each existing cell (pandas
applies the pattern as a regex; for the plain values the engine handles
this is substring containment, the semantics the spec fixes).  When no
cell contains the value, a row is appended with id `max+1` (1 for an empty
table) and fresh timestamps. -/
def transform_dimension (source_value : String) (dest_df : List DimRow)
    (now : ℕ) : List DimRow :=
  if dest_df.any (fun r => pyIn source_value r.value) then
    dest_df
  else
    let new_id : ℤ := match dest_df with
      | [] => 1
      | r :: rs => maxId r rs + 1
    dest_df ++ [⟨new_id, source_value, now, now⟩]

/-- A row of `D_Country`.  `ISO2Code` is optional because rows appended by
`transform_dimension` carry only the id/value/timestamp columns, leaving
`ISO2Code` as `NaN`. -/
structure CountryRow where
  CountryID : ℤ
  CountryName : String
  ISO2Code : Option String
  created_at : ℕ
  updated_at : ℕ
deriving DecidableEq, Repr

/-- A row of `D_Company`; `CountryID` is filled in by
`relate_country_company` and is `NaN` before that. -/
structure CompanyRow where
  CompanyID : ℤ
  CompanyName : String
  CountryID : Option ℤ
  created_at : ℕ
  updated_at : ℕ
deriving DecidableEq, Repr

/-- A row of `DE1_ActivityCategory` (the fact generator reads
`ActivityCategoryID` and `ScopeID` from it). -/
structure CategoryRow where
  ActivityCategoryID : ℤ
  ActivityCategory : String
  ScopeID : ℤ
deriving DecidableEq, Repr

/-- A row of `DE1_ActivitySubcategory`. -/
structure SubcatRow where
  ActivitySubcategoryID : ℤ
  ActivitySubcategoryName : String
deriving DecidableEq, Repr

/-- A row of `DE1_Scopes` (passed through unchanged; never read by the
fact generator, which resolves `ScopeID` from the category table). -/
structure ScopeRow where
  ScopeID : ℤ
  ScopeName : String
deriving DecidableEq, Repr

/-- A row of `DE1_ActivityEmissionSource`. -/
structure EmissionSourceRow where
  ActivityEmissionSourceID : ℤ
  ActivitySubcategoryID : ℤ
  ActivityEmissionSourceName : String
  UnitID : ℤ
deriving DecidableEq, Repr

/-- A row of `DE1_ActivityEmissionSourceProvi` (rows appended by
`transform_emission_source_provider` carry exactly these two columns). -/
structure ProviderRow where
  ActivityEmissionSourceProviderID : ℤ
  ProviderName : String
deriving DecidableEq, Repr

/-- A row of `D_Currency`.  `CurrencyCode` and `CurrencyName` are optional
because `transform_D_Currency` appends rows that set only `CurrencyName`
(plus id and timestamps), leaving `CurrencyCode` as `NaN`. -/
structure CurrencyRow where
  CurrencyID : ℤ
  CurrencyCode : Option String
  CurrencyName : Option String
  created_at : ℕ
  updated_at : ℕ
deriving DecidableEq, Repr

/-- A row of `DE1_Unit`. -/
structure UnitRow where
  UnitID : ℤ
  UnitName : String
  created_at : ℕ
  updated_at : ℕ
deriving DecidableEq, Repr

/-- A row of `D_Date` as built by `transform_D_Date`. -/
structure DateRow where
  DateKey : String
  StartDate : String
  EndDate : String
  Description : String
  Year : ℤ
  Quarter : ℤ
  Month : ℤ
  Day : ℤ
  created_at : ℕ
  updated_at : ℕ
deriving DecidableEq, Repr

/-- One mapping entry proposed by the external mapper
(`mapping[fact_column] = {source_column, transformation, relation,
consumption_type}`, all fields nullable). -/
structure MappingEntry where
  source_column : Option String := none
  transformation : Option String := none
  relation : Option String := none
  consumption_type : Option String := none
deriving DecidableEq, Repr

/-- The mapping is a JSON object: fact-column name to entry. -/
abbrev Mapping := List (String × MappingEntry)

/-- `mappings.get(key)` (first binding wins, as in a dict). -/
def mapGet (m : Mapping) (key : String) : Option MappingEntry :=
  (m.find? (fun p => p.1 == key)).map (·.2)

/-- `src/utils/dimesions.py`, `transform_dimension` instantiated at
`D_Country` (`value_column = 'CountryName'`, `id_column = 'CountryID'`):
same algorithm as `transform_dimension`, with appended rows leaving the
`ISO2Code` column `NaN`. -/
def transform_dimension_country (source_value : String)
    (dest_df : List CountryRow) (now : ℕ) : List CountryRow :=
  if dest_df.any (fun r => pyIn source_value r.CountryName) then
    dest_df
  else
    let new_id : ℤ := match dest_df with
      | [] => 1
      | r :: rs => rs.foldl (fun m x => max m x.CountryID) r.CountryID + 1
    dest_df ++ [⟨new_id, source_value, none, now, now⟩]

/-- `transform_dimension` instantiated at `D_Company`
(`value_column = 'CompanyName'`, `id_column = 'CompanyID'`); appended rows
leave `CountryID` as `NaN`. -/
def transform_dimension_company (source_value : String)
    (dest_df : List CompanyRow) (now : ℕ) : List CompanyRow :=
  if dest_df.any (fun r => pyIn source_value r.CompanyName) then
    dest_df
  else
    let new_id : ℤ := match dest_df with
      | [] => 1
      | r :: rs => rs.foldl (fun m x => max m x.CompanyID) r.CompanyID + 1
    dest_df ++ [⟨new_id, source_value, none, now, now⟩]

/-- `src/utils/dimesions.py`, `relate_country_company`: if a country row
with `CountryName == country` (exact comparison) exists, set its id as the
`CountryID` of every company row with `CompanyName == company` and bump
that row's `updated_at`; otherwise return the company table unchanged. -/
def relate_country_company (country company : String)
    (company_df : List CompanyRow) (country_df : List CountryRow)
    (now : ℕ) : List CompanyRow :=
  match country_df.find? (fun r => r.CountryName == country) with
  | none => company_df
  | some cr =>
      company_df.map (fun c =>
        if c.CompanyName == company then
          { c with CountryID := some cr.CountryID, updated_at := now }
        else c)

/-- Calendar quarter of a month (`Timestamp.quarter`). -/
def quarterOf (month : ℕ) : ℕ := (month - 1) / 3 + 1

/-- Number of days in the last month of quarter `q`
(used for `to_period('Q').end_time`): March and December have 31 days,
June and September have 30. -/
def quarterEndDay (q : ℕ) : ℕ := if q = 1 ∨ q = 4 then 31 else 30

/-- The `D_Date` row built by `transform_D_Date` for one source date:
`DateKey = strftime('%Y%m%d')`, quarter start/end formatted `%d-%m-%Y`,
description `"{year} Quarter {q} Report"`, and the integer breakdown. -/
def mkDateRow (now : ℕ) (y m d : ℕ) : DateRow :=
  let q := quarterOf m
  { DateKey := padNum 4 y ++ padNum 2 m ++ padNum 2 d
    StartDate := padNum 2 1 ++ "-" ++ padNum 2 (3 * q - 2) ++ "-" ++ padNum 4 y
    EndDate := padNum 2 (quarterEndDay q) ++ "-" ++ padNum 2 (3 * q) ++ "-" ++ padNum 4 y
    Description := toString y ++ " Quarter " ++ toString q ++ " Report"
    Year := (y : ℤ)
    Quarter := (q : ℤ)
    Month := (m : ℤ)
    Day := (d : ℤ)
    created_at := now
    updated_at := now }

/-- The single synthetic row `transform_D_Date` builds when no source date
column is mapped: the whole reporting year. -/
def annualDateRow (now : ℕ) (ReportingYear : ℤ) : DateRow :=
  { DateKey := toString ReportingYear ++ "0101"
    StartDate := "01-01-" ++ toString ReportingYear
    EndDate := "31-12-" ++ toString ReportingYear
    Description := toString ReportingYear ++ " Annual Report"
    Year := ReportingYear
    Quarter := 1
    Month := 1
    Day := 1
    created_at := now
    updated_at := now }

/-- `drop_duplicates(subset='DateKey')` with `keep='first'`: scan in table
order, keep a row only when its `DateKey` has not been seen yet. -/
def dedupDateGo (seen : List String) : List DateRow → List DateRow
  | [] => []
  | r :: rs =>
      if r.DateKey ∈ seen then dedupDateGo seen rs
      else r :: dedupDateGo (r.DateKey :: seen) rs

/-- `date_df.drop_duplicates(subset='DateKey').reset_index(drop=True)`. -/
def dedupByDateKey (rows : List DateRow) : List DateRow := dedupDateGo [] rows

/-- The mapped date column of the source, when every cell is a timestamp
(`date_col.dt` raises on a non-datetime column, embedded as `none`). -/
def dateCells (source_df : Table) (sc : String) : Option (List (ℕ × ℕ × ℕ)) :=
  source_df.rows.mapM (fun r =>
    match rowGet r sc with
    | .vdate y m d => some (y, m, d)
    | _ => none)

/-- `src/utils/dimesions.py`, `transform_D_Date`: build the date dimension
from the mapped source date column (one raw row per source row, then
de-duplicated by `DateKey` keeping the first occurrence) or, when the
`DateKey` mapping is absent-valued or names a missing column, a single
whole-year row.  `mapping['DateKey']` raises `KeyError` when the key is
missing; `.dt` raises on a non-datetime column. -/
def transform_D_Date (mapping : Mapping) (source_df : Table)
    (ReportingYear : ℤ) (now : ℕ) : Except String (List DateRow) := do
  let entry ← match mapGet mapping "DateKey" with
    | some e => pure e
    | none => .error "KeyError: DateKey"
  match entry.source_column with
  | some sc =>
      if sc ∈ source_df.cols then
        match dateCells source_df sc with
        | some cells =>
            pure (dedupByDateKey (cells.map (fun c => mkDateRow now c.1 c.2.1 c.2.2)))
        | none => .error ".dt accessor on non-datetime column"
      else
        pure (dedupByDateKey [annualDateRow now ReportingYear])
  | none => pure (dedupByDateKey [annualDateRow now ReportingYear])

/-- First-occurrence-preserving `unique()` over the cells of a source
column. -/
def uniqueCells (cells : List PyVal) : List PyVal := cells.eraseDups

/-- `src/utils/dimesions.py`, `transform_D_Currency`: when the
`CurrencyID` mapping names an existing source column, upsert each unique
currency value (pandas `unique`, first occurrence order, `NaN` included)
into the destination currency table, writing only `CurrencyID`,
`CurrencyName` and timestamps (the `CurrencyCode` column of appended rows
stays `NaN` — the containment check reads `CurrencyCode`, so appended rows
never satisfy it); `str.contains` with a non-string pattern raises
`TypeError`.  When the mapping is null-valued or names a missing column
the function falls through WITHOUT a return and yields Python `None`. -/
def transform_D_Currency (mapping : Mapping) (source_df : Table)
    (dest_df : List CurrencyRow) (now : ℕ) :
    Except String (Option (List CurrencyRow)) := do
  let entry ← match mapGet mapping "CurrencyID" with
    | some e => pure e
    | none => .error "KeyError: CurrencyID"
  match entry.source_column with
  | some sc =>
      if sc ∈ source_df.cols then do
        let unique_currencies := uniqueCells (source_df.rows.map (fun r => rowGet r sc))
        let df ← unique_currencies.foldlM (fun (df : List CurrencyRow) currency => do
          let cstr ← match currency with
            | .vstr s => pure s
            | _ => .error "TypeError: str.contains with non-string pattern"
          if df.any (fun r => match r.CurrencyCode with
              | some code => pyIn cstr code
              | none => false) then
            pure df
          else
            let new_id : ℤ := match df with
              | [] => 1
              | r :: rs => rs.foldl (fun m x => max m x.CurrencyID) r.CurrencyID + 1
            pure (df ++ [⟨new_id, none, some cstr, now, now⟩])) dest_df
        pure (some df)
      else
        pure none
  | none => pure none

/-- `src/utils/dimesions.py` / `src/utils/fact.py`,
`get_next_incremental_id` on the provider table: `1` for an empty frame,
else `max(id column) + 1` (ids are integers, so the `notna` guard always
passes; the id column always exists on the typed table). -/
def get_next_incremental_id_provider (df : List ProviderRow) : ℤ :=
  match df with
  | [] => 1
  | r :: rs =>
      rs.foldl (fun m x => max m x.ActivityEmissionSourceProviderID)
        r.ActivityEmissionSourceProviderID + 1

/-- `src/utils/dimesions.py`, `transform_emission_source_provider`: upsert
each unique non-null provider value of the mapped source column.  Note the
code tests containment against the ORIGINAL table `df`
(`df['ProviderName'].str.contains(provider, regex=False)`, literal
containment) while appending to and drawing ids from the growing
`result_df`.  A missing/ill-formed mapping entry or a missing source
column returns the copy unchanged; a non-string provider value raises
`TypeError`. -/
def transform_emission_source_provider (mapping : Mapping)
    (source_df : Table) (df : List ProviderRow) :
    Except String (List ProviderRow) := do
  let provider_mapping := mapGet mapping "ActivityEmissionSourceProviderID"
  match provider_mapping with
  | none => pure df
  | some pm =>
      match pm.source_column with
      | none => pure df
      | some sc =>
          if sc ∈ source_df.cols then do
            let providers := uniqueCells
              ((source_df.rows.map (fun r => rowGet r sc)).filter
                (fun v => v ≠ PyVal.vnull))
            providers.foldlM (fun (result_df : List ProviderRow) provider => do
              let pstr ← match provider with
                | .vstr s => pure s
                | _ => .error "TypeError: str.contains with non-string pattern"
              if df.any (fun r => pyIn pstr r.ProviderName) then
                pure result_df
              else
                pure (result_df ++
                  [⟨get_next_incremental_id_provider result_df, pstr⟩])) df
          else
            pure df

/-- `src/utils/dimesions.py`, `transform_unit`: when the `UnitID` mapping
names an existing source column AND the calculation method is
`Consumption-based`, upsert each unique non-null unit value (converted
with `str(...)`) into the destination unit table; otherwise pass the
destination table through unchanged.  `mapping['UnitID']` raises
`KeyError` when the key is missing. -/
def transform_unit (mapping : Mapping) (source_df : Table)
    (dest_df : List UnitRow) (calc_method : String) (now : ℕ) :
    Except String (List UnitRow) := do
  let entry ← match mapGet mapping "UnitID" with
    | some e => pure e
    | none => .error "KeyError: UnitID"
  match entry.source_column with
  | some sc =>
      if sc ∈ source_df.cols ∧ calc_method = "Consumption-based" then do
        let unique_units := uniqueCells
          ((source_df.rows.map (fun r => rowGet r sc)).filter
            (fun v => v ≠ PyVal.vnull))
        pure (unique_units.foldl (fun (df : List UnitRow) u =>
          let unit := pyStr u
          if df.any (fun r => pyIn unit r.UnitName) then df
          else
            let new_id : ℤ := match df with
              | [] => 1
              | r :: rs => rs.foldl (fun m x => max m x.UnitID) r.UnitID + 1
            df ++ [⟨new_id, unit, now, now⟩]) dest_df)
      else
        pure dest_df
  | none => pure dest_df

/-- `src/utils/airport_distance.py`, `AIRPORT_COORDINATES`: the static
IATA-code → (latitude, longitude) table, verbatim from the source. -/
def AIRPORT_COORDINATES : List (String × ℚ × ℚ) :=
  [("CDG", 49.0097, 2.5479), ("HND", 35.5494, 139.7798),
   ("LHR", 51.4700, -0.4543), ("JFK", 40.6413, -73.7781),
   ("LAX", 33.9425, -118.4081), ("FRA", 50.0379, 8.5622),
   ("AMS", 52.3105, 4.7683), ("DXB", 25.2532, 55.3657),
   ("SIN", 1.3644, 103.9915), ("NRT", 35.7653, 140.3864),
   ("ICN", 37.4602, 126.4407), ("SYD", -33.9399, 151.1753),
   ("MEL", -37.6690, 144.8410), ("BKK", 13.6900, 100.7501),
   ("HKG", 22.3080, 113.9185), ("TPE", 25.0777, 121.2328),
   ("KUL", 2.7456, 101.7072), ("BOM", 19.0896, 72.8656),
   ("DEL", 28.5665, 77.1031), ("PEK", 40.0799, 116.6031),
   ("SHA", 31.1979, 121.3364), ("PVG", 31.1443, 121.8083),
   ("CAN", 23.3924, 113.2988), ("SZX", 22.6393, 113.8107),
   ("MAD", 40.4839, -3.5680), ("BCN", 41.2974, 2.0833),
   ("FCO", 41.7943, 12.2531), ("MXP", 45.6306, 8.7231),
   ("VIE", 48.1103, 16.5697), ("ZUR", 47.4647, 8.5492),
   ("MUC", 48.3537, 11.7750), ("DUS", 51.2895, 6.7668),
   ("BER", 52.3667, 13.5033), ("CPH", 55.6181, 12.6561),
   ("ARN", 59.6519, 17.9186), ("OSL", 60.1939, 11.1004),
   ("HEL", 60.3172, 24.9633), ("WAW", 52.1657, 20.9671),
   ("PRG", 50.1008, 14.2632), ("BUD", 47.4269, 19.2618),
   ("ATH", 37.9364, 23.9445), ("IST", 41.2753, 28.7519),
   ("CAI", 30.1127, 31.4000), ("JNB", -26.1367, 28.2411),
   ("CPT", -33.9716, 18.6021), ("YYZ", 43.6777, -79.6248),
   ("YVR", 49.1967, -123.1815), ("MEX", 19.4363, -99.0721),
   ("GRU", -23.4356, -46.4731), ("GIG", -22.8099, -43.2505),
   ("EZE", -34.8222, -58.5358), ("BOG", 4.7016, -74.1469),
   ("LIM", -12.0219, -77.1143), ("SCL", -33.3928, -70.7854),
   ("DFW", 32.8998, -97.0403), ("ORD", 41.9742, -87.9073),
   ("ATL", 33.6407, -84.4277), ("MIA", 25.7959, -80.2870),
   ("SFO", 37.6213, -122.3790), ("SEA", 47.4502, -122.3088),
   ("LAS", 36.0840, -115.1537), ("PHX", 33.4346, -112.0120),
   ("DEN", 39.8561, -104.6737), ("IAH", 29.9902, -95.3368),
   ("MSP", 44.8848, -93.2223), ("DTW", 42.2162, -83.3554),
   ("BOS", 42.3656, -71.0096), ("PHL", 39.8744, -75.2424),
   ("CLT", 35.2144, -80.9473), ("LGA", 40.7769, -73.8740),
   ("BWI", 39.1774, -76.6684), ("DCA", 38.8512, -77.0402),
   ("IAD", 38.9531, -77.4565)]

/-- `src/utils/airport_distance.py`, `get_airport_coordinates`: falsy
(empty) code gives `None`, else the stripped, upper-cased code is looked
up in the static table. -/
def get_airport_coordinates (iata_code : String) : Option (ℚ × ℚ) :=
  if iata_code = "" then none
  else (AIRPORT_COORDINATES.find? (fun p => p.1 == strUpper (strTrim iata_code))).map (·.2)

/-- Python `round(x, 2)` (round-half-to-even on the scaled value). -/
def pyRound2 (x : ℚ) : ℚ :=
  let y := x * 100
  let f : ℤ := Int.floor y
  let r := y - (f : ℚ)
  let n : ℤ :=
    if r < 1/2 then f
    else if r > 1/2 then f + 1
    else if 2 ∣ f then f else f + 1
  (n : ℚ) / 100

/-- `src/utils/airport_distance.py`, `calculate_airport_distance`,
parametrised by the external geodesic kernel `geo` (geopy's
`geodesic(...).kilometers`, third-party code).  A falsy input (Python
`None`, `""`, numeric zero) returns `None`; a truthy non-string input
raises `AttributeError` inside the function's `try`, which its
`except` turns into `None`; an unknown code returns `None`; otherwise the
kernel's distance rounded to 2 decimals. -/
def calculate_airport_distance (geo : ℚ × ℚ → ℚ × ℚ → ℚ)
    (origin_code destination_code : PyVal) : Option ℚ :=
  if ¬ (pyTruthy origin_code ∧ pyTruthy destination_code) then none
  else
    match origin_code, destination_code with
    | .vstr so, .vstr sd =>
        match get_airport_coordinates so, get_airport_coordinates sd with
        | some oc, some dc => some (pyRound2 (geo oc dc))
        | _, _ => none
    | _, _ => none

/-- Mantissa part of a Python float literal: `digits`, `digits.digits`,
`digits.` or `.digits`. -/
def pyFloatMantissa (cs : List Char) : Option ℚ :=
  let p := cs.span (fun c => c ≠ '.')
  match p.2 with
  | [] =>
      if p.1 ≠ [] ∧ p.1.all Char.isDigit then some ((digitsVal p.1 : ℚ)) else none
  | _ :: fp =>
      if p.1 ++ fp ≠ [] ∧ p.1.all Char.isDigit ∧ fp.all Char.isDigit then
        some ((digitsVal (p.1 ++ fp) : ℚ) / ((10 : ℚ) ^ fp.length))
      else none

/-- Python `float(str)` on ordinary decimal literals: optional surrounding
whitespace, optional sign, mantissa, optional `e`/`E` exponent.  (The
builtin also accepts `inf`/`nan`/underscores, which never arise in any
claim.)  `none` models the `ValueError` raise. -/
def pyFloatOfString (s : String) : Option ℚ :=
  let t := (strTrim s).toList
  let sp : Bool × List Char := match t with
    | '+' :: r => (false, r)
    | '-' :: r => (true, r)
    | r => (false, r)
  let me := sp.2.span (fun c => c ≠ 'e' ∧ c ≠ 'E')
  let expVal : Option ℤ := match me.2 with
    | [] => some 0
    | _ :: ecs =>
        let esp : Bool × List Char := match ecs with
          | '+' :: r => (false, r)
          | '-' :: r => (true, r)
          | r => (false, r)
        if esp.2 ≠ [] ∧ esp.2.all Char.isDigit then
          some (if esp.1 then -(digitsVal esp.2 : ℤ) else (digitsVal esp.2 : ℤ))
        else none
  match pyFloatMantissa me.1, expVal with
  | some m, some e => some ((if sp.1 then -m else m) * (10 : ℚ) ^ e)
  | _, _ => none

/-- Python `float(value)` on an embedded scalar; raises (`.error`) for a
non-numeric string, `None` and timestamps. -/
def pyFloatExc : PyVal → Except String ℚ
  | .vint n => .ok (n : ℚ)
  | .vfloat q => .ok q
  | .vstr s =>
      match pyFloatOfString s with
      | some q => .ok q
      | none => .error ("ValueError: could not convert string to float: " ++ s)
  | .vnull => .error "TypeError: float() argument must not be None"
  | .vdate _ _ _ => .error "TypeError: float() argument must not be a Timestamp"

/-- `lookup_value(activity_subcat_df, 'ActivitySubcategoryName', v,
'ActivitySubcategoryID')` on the typed subcategory table. -/
def lookup_subcat_id (df : List SubcatRow) (v : String) : Option ℤ :=
  (df.find? (fun r => lowerEq r.ActivitySubcategoryName v)).map
    (·.ActivitySubcategoryID)

/-- `lookup_value(country_df, 'CountryName', country, 'ISO2Code')` on the
typed country table: `none` = no matching row (Python `None`);
`some none` = matching row whose `ISO2Code` cell is `NaN`. -/
def lookup_country_iso2 (df : List CountryRow) (country : String) :
    Option (Option String) :=
  (df.find? (fun r => lowerEq r.CountryName country)).map (·.ISO2Code)

/-- f-string interpolation of the ISO2 lookup result: Python `None`
renders as `"None"`, a `NaN` cell as `"nan"`. -/
def fstrCell : Option (Option String) → String
  | none => "None"
  | some none => "nan"
  | some (some s) => s

/-- f-string interpolation of an optional string (`None` → `"None"`). -/
def fstrOpt : Option String → String
  | none => "None"
  | some s => s

/-- The admissible transformation suffixes
(`['Distance', 'Fuel', 'Electricity', 'Heating', 'Days']` for
`Consumption-based`, else `['Currency']`). -/
def valid_transformations (calc_method : String) : List String :=
  if calc_method = "Consumption-based" then
    ["Distance", "Fuel", "Electricity", "Heating", "Days"]
  else ["Currency"]

/-- The scan in `find_emission_ids` (fact.py:28-34): walk the mapping in
order; for each entry whose fact-column name contains
`'ConsumptionAmount'`, evaluate
`mapping_info.get('consumption_type', '').lower()` — the `''` default
fires only when the KEY is absent, and the spec's `MappingEntry` carries
all four fields (nullable), so `none` here models a present-but-null
value, on which `.lower()` raises `AttributeError`.  A non-null
`consumption_type` in the admissible set stops the scan (`break`); an
inadmissible one is skipped. -/
def find_transformation : Mapping → String → Except String (Option String)
  | [], _ => .ok none
  | (k, mi) :: rest, calc_method =>
      if pyIn "ConsumptionAmount" k then
        match mi.consumption_type with
        | none => .error "AttributeError: NoneType object has no attribute lower"
        | some ct =>
            let trans := strLower ct
            if ((valid_transformations calc_method).map strLower).contains
                trans then
              .ok (some trans)
            else
              find_transformation rest calc_method
      else
        find_transformation rest calc_method

/-- `src/utils/fact.py`, `get_emission_source_id_by_suffix`: first row
whose `ActivitySubcategoryID` equals the given id (a pandas `== None`
comparison is elementwise `False`) and whose name, lower-cased, ends with
the lower-cased suffix. -/
def get_emission_source_id_by_suffix (df : List EmissionSourceRow)
    (subcategory_id : Option ℤ) (suffix : String) : Option ℤ :=
  (df.find? (fun r =>
      (match subcategory_id with
       | some i => r.ActivitySubcategoryID == i
       | none => false) &&
      strEndsWith (strLower r.ActivityEmissionSourceName) (strLower suffix))).map
    (·.ActivityEmissionSourceID)

/-- `lookup_value(df, 'ActivityEmissionSourceID', esid, 'UnitID')`. -/
def lookup_es_unit (df : List EmissionSourceRow) (esid : ℤ) : Option ℤ :=
  (df.find? (fun r =>
      lowerEq (toString r.ActivityEmissionSourceID) (toString esid))).map
    (·.UnitID)

/-- `lookup_value(df, 'ActivityEmissionSourceID', esid,
'ActivityEmissionSourceName')`. -/
def lookup_es_name (df : List EmissionSourceRow) (esid : ℤ) : Option String :=
  (df.find? (fun r =>
      lowerEq (toString r.ActivityEmissionSourceID) (toString esid))).map
    (·.ActivityEmissionSourceName)

/-- `src/utils/fact.py`, `find_emission_ids`: resolve the run-wide
`(ActivityEmissionSourceID, UnitID, EmissionFactorID)` triple.  The
mapping scan can raise (`.error`, a present-but-null `consumption_type`).
No admissible transformation, or a falsy resolved source id (`None`, or
the literal id `0` — `if not emission_source_id`), gives the null triple;
otherwise the unit id and name of the resolved source row and the
composite `f"{iso2_code}_{emission_source_name}"` string. -/
def find_emission_ids (mappings : Mapping) (activity_subcat : String)
    (activity_subcat_df : List SubcatRow)
    (activity_emission_source_df : List EmissionSourceRow)
    (country_df : List CountryRow) (country : String)
    (calc_method : String) :
    Except String (Option ℤ × Option ℤ × Option String) := do
  let activity_sub_cat_id := lookup_subcat_id activity_subcat_df activity_subcat
  let iso2_code := lookup_country_iso2 country_df country
  let tr ← find_transformation mappings calc_method
  match tr with
  | none => pure (none, none, none)
  | some transformation =>
      let emission_source_id := get_emission_source_id_by_suffix
        activity_emission_source_df activity_sub_cat_id transformation
      match emission_source_id with
      | none => pure (none, none, none)
      | some esid =>
          if esid = 0 then pure (none, none, none)
          else
            let unit_id := lookup_es_unit activity_emission_source_df esid
            let emission_source_name :=
              lookup_es_name activity_emission_source_df esid
            pure (some esid, unit_id,
              some (fstrCell iso2_code ++ "_" ++ fstrOpt emission_source_name))

/-- `lookup_value(date_df, 'Year', year, 'DateKey')`. -/
def lookup_year_datekey (date_df : List DateRow) (year : ℤ) : Option String :=
  (date_df.find? (fun r => lowerEq (toString r.Year) (toString year))).map
    (·.DateKey)

/-- `src/utils/fact.py`, `get_date_key`, parametrised by the external
pandas date parser (`pd.to_datetime(..., errors='coerce')`, third-party
code; `none` models `NaT`).  A `None`/`'null'` source column or a `None`
cell falls back to the reporting-year key, as does an unparseable date;
otherwise the parsed date is formatted `%Y%m%d` and looked up in the date
dimension's `DateKey` column. -/
def get_date_key (parseDate : PyVal → Option (ℕ × ℕ × ℕ))
    (date_df : List DateRow) (source_column : Option String) (year : ℤ)
    (date_value : PyVal) : Option String :=
  if source_column = none ∨ source_column = some "null" ∨
      date_value = PyVal.vnull then
    lookup_year_datekey date_df year
  else
    match parseDate date_value with
    | none => lookup_year_datekey date_df year
    | some c =>
        let date_key := padNum 4 c.1 ++ padNum 2 c.2.1 ++ padNum 2 c.2.2
        (date_df.find? (fun r => lowerEq r.DateKey date_key)).map (·.DateKey)

/-- The produced fact-table row.  Fields only written by the mapping loop
default to `none` (an absent dict key materialises as a `NaN` cell, which
`vnull`/`none` also stands for). -/
structure FactRow where
  EmissionActivityID : ℤ
  CompanyID : Option ℤ
  CountryID : Option ℤ
  ActivityCategoryID : Option ℤ
  ActivitySubcategoryID : Option ℤ
  ScopeID : Option ℤ
  ActivityEmissionSourceID : Option ℤ
  UnitID : Option ℤ
  EmissionFactorID : Option String
  DateKey : Option ℤ
  ConsumptionAmount : Option ℚ := none
  PaidAmount : Option ℚ := none
  ActivityEmissionSourceProviderID : Option ℤ := none
  CurrencyID : Option ℤ := none
deriving DecidableEq, Repr

/-- `src/utils/fact.py`, `create_empty_fact_table_structure`: an empty
frame with the destination's columns — the destination's ROWS are
discarded unconditionally. -/
def create_empty_fact_table_structure (dest_df : List FactRow) :
    List FactRow := []

/-- `get_next_incremental_id(result_df, 'EmissionActivityID')` on the
growing result: `1` for an empty frame, else `max + 1` (integer ids, so
the `notna` guard always passes, and the column always exists once a row
has been appended). -/
def get_next_incremental_id_fact (df : List FactRow) : ℤ :=
  match df with
  | [] => 1
  | r :: rs =>
      rs.foldl (fun m x => max m x.EmissionActivityID) r.EmissionActivityID + 1

/-- `lookup_value(company_df, 'CompanyName', company, 'CompanyID')`. -/
def lookup_company_id (df : List CompanyRow) (company : String) : Option ℤ :=
  (df.find? (fun r => lowerEq r.CompanyName company)).map (·.CompanyID)

/-- `lookup_value(country_df, 'CountryName', country, 'CountryID')`. -/
def lookup_country_id (df : List CountryRow) (country : String) : Option ℤ :=
  (df.find? (fun r => lowerEq r.CountryName country)).map (·.CountryID)

/-- `lookup_value(activity_cat_df, 'ActivityCategory', cat,
'ActivityCategoryID')`. -/
def lookup_category_id (df : List CategoryRow) (cat : String) : Option ℤ :=
  (df.find? (fun r => lowerEq r.ActivityCategory cat)).map
    (·.ActivityCategoryID)

/-- `lookup_value(activity_cat_df, 'ActivityCategory', cat, 'ScopeID')`
(the fact generator resolves `ScopeID` from the CATEGORY table). -/
def lookup_category_scope (df : List CategoryRow) (cat : String) : Option ℤ :=
  (df.find? (fun r => lowerEq r.ActivityCategory cat)).map (·.ScopeID)

/-- `lookup_value(provider_df, 'ProviderName', name_cell,
'ActivityEmissionSourceProviderID')`; a `None` cell short-circuits to
`None` inside `lookup_value`. -/
def lookup_provider_id (df : List ProviderRow) (name_cell : PyVal) :
    Option ℤ :=
  if name_cell = PyVal.vnull then none
  else
    (df.find? (fun r => lowerEq r.ProviderName (pyStr name_cell))).map
      (·.ActivityEmissionSourceProviderID)

/-- `lookup_value(currency_df, 'CurrencyCode', code_cell, 'CurrencyID')`;
a `NaN` `CurrencyCode` cell stringifies to `"nan"`. -/
def lookup_currency_id (df : List CurrencyRow) (code_cell : PyVal) :
    Option ℤ :=
  if code_cell = PyVal.vnull then none
  else
    (df.find? (fun r =>
        lowerEq (match r.CurrencyCode with
                 | some s => s
                 | none => "nan") (pyStr code_cell))).map (·.CurrencyID)

/-- The origin-column detection patterns of `generate_fact`. -/
def origin_patterns : List String :=
  ["origin", "departure", "from", "start", "source", "depart"]

/-- The destination-column detection patterns of `generate_fact`. -/
def destination_patterns : List String :=
  ["destination", "arrival", "to", "end", "dest", "arrive", "target"]

/-- The column scan of `generate_fact`: every column whose lower-cased,
stripped name contains an origin pattern overwrites `origin_column`
(`elif` gives origin precedence); otherwise a destination-pattern match
overwrites `destination_column` — last match wins, the loop has no
`break`. -/
def detect_airport_columns (cols : List String) :
    Option String × Option String :=
  cols.foldl (fun (st : Option String × Option String) column =>
    let cl := strTrim (strLower column)
    if origin_patterns.any (fun p => pyIn p cl) then (some column, st.2)
    else if destination_patterns.any (fun p => pyIn p cl) then
      (st.1, some column)
    else st) (none, none)

/-- Method 2 of the per-row air-travel calculation: scan every source
column for a truthy 3-character (after strip) string cell whose
stripped-upper-cased form is a known airport code. -/
def method2_codes (source_df : Table)
    (source_row : List (String × PyVal)) : List String :=
  source_df.cols.filterMap (fun col =>
    match rowGet source_row col with
    | .vstr s =>
        if s ≠ "" ∧ (strTrim s).length = 3 ∧
            (get_airport_coordinates (strUpper (strTrim s))).isSome then
          some (strUpper (strTrim s))
        else none
    | _ => none)

/-- The per-row air-travel `ConsumptionAmount`: method 1 uses the detected
origin/destination columns; when the result is falsy (`None` OR `0.0` —
`if not distance:`), method 2 computes the distance of the first two
detected airport codes, if at least two exist, and otherwise the method-1
value (possibly `0.0`) stands. -/
def air_travel_distance (geo : ℚ × ℚ → ℚ × ℚ → ℚ) (source_df : Table)
    (origin_column destination_column : Option String)
    (source_row : List (String × PyVal)) : Option ℚ :=
  let m1 : Option ℚ :=
    match origin_column, destination_column with
    | some oc, some dc =>
        calculate_airport_distance geo (rowGet source_row oc)
          (rowGet source_row dc)
    | _, _ => none
  if (match m1 with
      | some q => q != 0
      | none => false) then m1
  else
    match method2_codes source_df source_row with
    | c0 :: c1 :: _ =>
        calculate_airport_distance geo (.vstr c0) (.vstr c1)
    | _ => m1

/-- First `if`-chain of the mapping-loop body: the `ConsumptionAmount` /
`PaidAmount` branches.  For `ConsumptionAmount` the code first evaluates
`mapping_config.get("consumption_type", "").lower()` (fact.py:288), which
raises `AttributeError` on a present-but-null `consumption_type`; it then
either computes the air-travel distance (when
`consumption_type == 'distance'` and the run is consumption-based
business-travel/air-travel) or casts the mapped source cell with
`float(...)` (a raise propagates), else stays null; `PaidAmount` casts
the mapped cell. -/
def amf_amounts (geo : ℚ × ℚ → ℚ × ℚ → ℚ) (source_df : Table)
    (source_row : List (String × PyVal))
    (origin_column destination_column : Option String)
    (calc_method activity_cat activity_subcat : String) (row : FactRow)
    (field_name : String) (mc : MappingEntry) : Except String FactRow :=
  let source_column := mc.source_column
  let scInCols : Bool := match source_column with
    | some sc => source_df.cols.contains sc
    | none => false
  if field_name = "ConsumptionAmount" then do
    let consumption_type ← match mc.consumption_type with
      | none => .error "AttributeError: NoneType object has no attribute lower"
      | some ct => pure (strLower ct)
    if consumption_type = "distance" ∧ calc_method = "Consumption-based" ∧
        strLower activity_cat = "business travel" ∧
        strLower activity_subcat = "air travel" then
      let d := air_travel_distance geo source_df origin_column
        destination_column source_row
      pure { row with ConsumptionAmount := d }
    else if (match source_column with
             | some sc => sc != "" && source_df.cols.contains sc
             | none => false) then
      let value := rowGet source_row (source_column.getD "")
      if value = PyVal.vnull then
        pure { row with ConsumptionAmount := none }
      else do
        let q ← pyFloatExc value
        pure { row with ConsumptionAmount := some q }
    else
      pure { row with ConsumptionAmount := none }
  else if field_name = "PaidAmount" ∧ scInCols then
    let value := rowGet source_row (source_column.getD "")
    if value = PyVal.vnull then
      pure { row with PaidAmount := none }
    else do
      let q ← pyFloatExc value
      pure { row with PaidAmount := some q }
  else
    pure row

/-- Second `if` of the mapping-loop body: provider-id resolution via the
lookup service. -/
def amf_provider (source_df : Table) (source_row : List (String × PyVal))
    (provider_df : List ProviderRow) (row : FactRow)
    (field_name : String) (mc : MappingEntry) : Except String FactRow :=
  let source_column := mc.source_column
  let scInCols : Bool := match source_column with
    | some sc => source_df.cols.contains sc
    | none => false
  if field_name = "ActivityEmissionSourceProviderID" ∧ scInCols then
    let pid := lookup_provider_id provider_df
      (rowGet source_row (source_column.getD ""))
    pure { row with ActivityEmissionSourceProviderID := pid }
  else
    pure row

/-- Third `if` of the mapping-loop body: currency-id resolution
(dereferencing a `None` currency table raises `AttributeError`). -/
def amf_currency (source_df : Table) (source_row : List (String × PyVal))
    (currency_df : Option (List CurrencyRow)) (row : FactRow)
    (field_name : String) (mc : MappingEntry) : Except String FactRow :=
  let source_column := mc.source_column
  let scInCols : Bool := match source_column with
    | some sc => source_df.cols.contains sc
    | none => false
  if field_name = "CurrencyID" ∧ scInCols then
    match currency_df with
    | none => .error "AttributeError: NoneType object has no attribute empty"
    | some cdf =>
        let cid := lookup_currency_id cdf
          (rowGet source_row (source_column.getD ""))
        pure { row with CurrencyID := cid }
  else
    pure row

/-- One iteration of the mapping loop in `generate_fact`'s per-row body:
the amounts `if`-chain, then the provider `if`, then the currency `if`.
All other fact-column names are ignored by the loop. -/
def apply_mapping_field (geo : ℚ × ℚ → ℚ × ℚ → ℚ) (source_df : Table)
    (source_row : List (String × PyVal))
    (origin_column destination_column : Option String)
    (calc_method activity_cat activity_subcat : String)
    (provider_df : List ProviderRow)
    (currency_df : Option (List CurrencyRow)) (row : FactRow)
    (field_name : String) (mc : MappingEntry) : Except String FactRow := do
  let row ← amf_amounts geo source_df source_row origin_column
    destination_column calc_method activity_cat activity_subcat row
    field_name mc
  let row ← amf_provider source_df source_row provider_df row field_name mc
  let row ← amf_currency source_df source_row currency_df row field_name mc
  pure row

/-- The body of `generate_fact`'s per-row loop: assemble one fact row.
Fixed foreign keys are looked up per row from the literal run parameters;
`EmissionActivityID` is `get_next_incremental_id` over the rows appended
so far; the once-resolved emission triple is copied in; `DateKey` is
resolved and cast with `int(...)` (a non-integer key raises); then the
mapping loop runs. -/
def build_fact_row (geo : ℚ × ℚ → ℚ × ℚ → ℚ)
    (parseDate : PyVal → Option (ℕ × ℕ × ℕ)) (mappings : Mapping)
    (source_df : Table) (activity_cat_df : List CategoryRow)
    (activity_subcat_df : List SubcatRow)
    (activity_emmission_source_provider_df : List ProviderRow)
    (currency_df : Option (List CurrencyRow)) (date_df : List DateRow)
    (country_df : List CountryRow) (company_df : List CompanyRow)
    (company country activity_cat activity_subcat : String)
    (reporting_year : ℤ) (calc_method : String)
    (emission_source_id unit_id : Option ℤ)
    (emission_factor_id : Option String)
    (origin_column destination_column : Option String)
    (result_df : List FactRow) (source_row : List (String × PyVal)) :
    Except String FactRow := do
  let dk_source_column := (mapGet mappings "DateKey").bind (·.source_column)
  let date_key := get_date_key parseDate date_df dk_source_column
    reporting_year
    (match dk_source_column with
     | some sc => rowGet source_row sc
     | none => PyVal.vnull)
  let dateKeyInt : Option ℤ ←
    match date_key with
    | none => pure none
    | some s =>
        match strToInt? s with
        | some n => pure (some n)
        | none => .error ("ValueError: invalid literal for int(): " ++ s)
  let row : FactRow :=
    { EmissionActivityID := get_next_incremental_id_fact result_df
      CompanyID := lookup_company_id company_df company
      CountryID := lookup_country_id country_df country
      ActivityCategoryID := lookup_category_id activity_cat_df activity_cat
      ActivitySubcategoryID := lookup_subcat_id activity_subcat_df
        activity_subcat
      ScopeID := lookup_category_scope activity_cat_df activity_cat
      ActivityEmissionSourceID := emission_source_id
      UnitID := unit_id
      EmissionFactorID := emission_factor_id
      DateKey := dateKeyInt }
  mappings.foldlM (fun row p =>
    apply_mapping_field geo source_df source_row origin_column
      destination_column calc_method activity_cat activity_subcat
      activity_emmission_source_provider_df currency_df row p.1 p.2) row

/-- The pre-loop display block of `generate_fact` (fact.py:204-250).  The
Streamlit output is UI glue, but the block has one semantic effect: when
the run is NOT air-travel-consumption (`is_air_travel_consumption` false,
the `else` at fact.py:241), lines 243-244 evaluate
`mappings.get('ConsumptionAmount', {}).get('consumption_type', '').lower()`,
which raises `AttributeError` when the `ConsumptionAmount` entry exists
with a present-but-null `consumption_type` (the `''` default fires only
when the whole entry is absent).  `is_air_travel_consumption` requires a
consumption-based business-travel/air-travel run with truthy detected
origin and destination columns. -/
def generate_fact_preloop_check (mappings : Mapping)
    (calc_method activity_cat activity_subcat : String)
    (origin_column destination_column : Option String) :
    Except String Unit :=
  let is_air_travel_consumption : Bool :=
    calc_method == "Consumption-based" &&
    strLower activity_cat == "business travel" &&
    strLower activity_subcat == "air travel" &&
    (match origin_column with
     | some s => s != ""
     | none => false) &&
    (match destination_column with
     | some s => s != ""
     | none => false)
  if is_air_travel_consumption then .ok ()
  else
    match mapGet mappings "ConsumptionAmount" with
    | none => .ok ()
    | some mc =>
        match mc.consumption_type with
        | none =>
            .error "AttributeError: NoneType object has no attribute lower"
        | some _ => .ok ()

/-- The body of the `for index, (_, source_row) in enumerate(...)` loop of
`generate_fact`: build one fact row and append it
(`pd.concat([result_df, pd.DataFrame([new_row])])`). -/
def generate_fact_step (geo : ℚ × ℚ → ℚ × ℚ → ℚ)
    (parseDate : PyVal → Option (ℕ × ℕ × ℕ)) (mappings : Mapping)
    (source_df : Table) (activity_cat_df : List CategoryRow)
    (activity_subcat_df : List SubcatRow)
    (activity_emmission_source_provider_df : List ProviderRow)
    (currency_df : Option (List CurrencyRow)) (date_df : List DateRow)
    (country_df : List CountryRow) (company_df : List CompanyRow)
    (company country activity_cat activity_subcat : String)
    (reporting_year : ℤ) (calc_method : String)
    (emission_source_id unit_id : Option ℤ)
    (emission_factor_id : Option String)
    (origin_column destination_column : Option String)
    (result_df : List FactRow) (source_row : List (String × PyVal)) :
    Except String (List FactRow) := do
  let new_row ← build_fact_row geo parseDate mappings source_df
    activity_cat_df activity_subcat_df
    activity_emmission_source_provider_df currency_df date_df country_df
    company_df company country activity_cat activity_subcat
    reporting_year calc_method emission_source_id unit_id
    emission_factor_id origin_column destination_column
    result_df source_row
  pure (result_df ++ [new_row])

/-- `src/utils/fact.py`, `generate_fact`: the fact generator.  The output
starts as the EMPTY structure of the destination table (its rows are
discarded), the emission triple is resolved once for the whole run, the
airport columns are detected once, then one fact row is appended per
source row in source order.  Progress reporting and Streamlit display are
UI glue without effect on the produced table and are not modelled;
`scope_df` and `unit_df` are accepted and never read, exactly as in the
source. -/
def generate_fact (geo : ℚ × ℚ → ℚ × ℚ → ℚ)
    (parseDate : PyVal → Option (ℕ × ℕ × ℕ)) (mappings : Mapping)
    (source_df : Table) (dest_df : List FactRow)
    (activity_cat_df : List CategoryRow)
    (activity_subcat_df : List SubcatRow) (scope_df : List ScopeRow)
    (activity_emission_source_df : List EmissionSourceRow)
    (activity_emmission_source_provider_df : List ProviderRow)
    (unit_df : List UnitRow) (currency_df : Option (List CurrencyRow))
    (date_df : List DateRow) (country_df : List CountryRow)
    (company_df : List CompanyRow)
    (company country activity_cat activity_subcat : String)
    (reporting_year : ℤ) (calc_method : String) :
    Except String (List FactRow) := do
  let result_df := create_empty_fact_table_structure dest_df
  let ids ← find_emission_ids mappings activity_subcat activity_subcat_df
    activity_emission_source_df country_df country calc_method
  let oc_dc := detect_airport_columns source_df.cols
  let _ ← generate_fact_preloop_check mappings calc_method activity_cat
    activity_subcat oc_dc.1 oc_dc.2
  source_df.rows.foldlM (generate_fact_step geo parseDate mappings
    source_df activity_cat_df activity_subcat_df
    activity_emmission_source_provider_df currency_df date_df country_df
    company_df company country activity_cat activity_subcat
    reporting_year calc_method ids.1 ids.2.1 ids.2.2 oc_dc.1 oc_dc.2)
    result_df

/-- The destination tables handed to `transform_data` by the external
loader (`dest_tables[...]`). -/
structure DestTables where
  D_Country : List CountryRow
  D_Company : List CompanyRow
  D_Currency : List CurrencyRow
  DE1_ActivityEmissionSourceProvi : List ProviderRow
  DE1_Unit : List UnitRow
  DE1_ActivityCategory : List CategoryRow
  DE1_ActivitySubcategory : List SubcatRow
  DE1_Scopes : List ScopeRow
  DE1_ActivityEmissionSource : List EmissionSourceRow
  FE1_EmissionActivityData : List FactRow
deriving Repr

/-- The eleven named output tables returned by `transform_data`. -/
structure TransformOutputs where
  D_Company : List CompanyRow
  D_Country : List CountryRow
  DE1_ActivityCategory : List CategoryRow
  DE1_ActivitySubcategory : List SubcatRow
  DE1_Scopes : List ScopeRow
  DE1_ActivityEmissionSource : List EmissionSourceRow
  D_Date : List DateRow
  DE1_Unit : List UnitRow
  D_Currency : List CurrencyRow
  DE1_ActivityEmissionSourceProvi : List ProviderRow
  FE1_EmissionActivityData : List FactRow
deriving Repr

/-- `src/utils/transformer.py`, `transform_data`: the whole run.  The
dimension transforms run in source order, then the fact generator, then
every table is handed to the Excel writer — `currency_df.to_excel`
dereferences the currency table, raising `AttributeError` when
`transform_D_Currency` fell through and returned `None`.  The Excel file
itself is an external-writer concern and is not modelled beyond that
dereference. -/
def transform_data (geo : ℚ × ℚ → ℚ × ℚ → ℚ)
    (parseDate : PyVal → Option (ℕ × ℕ × ℕ)) (now : ℕ)
    (source_df : Table) (mapping : Mapping)
    (company country calc_method activity_cat activity_subcat : String)
    (dest_tables : DestTables) (ReportingYear : ℤ) :
    Except String TransformOutputs := do
  let country_df := transform_dimension_country country
    dest_tables.D_Country now
  let company_df := transform_dimension_company company
    dest_tables.D_Company now
  let company_df := relate_country_company country company company_df
    country_df now
  let date_df ← transform_D_Date mapping source_df ReportingYear now
  let currency_df ← transform_D_Currency mapping source_df
    dest_tables.D_Currency now
  let activity_emmission_source_provider_df ←
    transform_emission_source_provider mapping source_df
      dest_tables.DE1_ActivityEmissionSourceProvi
  let unit_df ← transform_unit mapping source_df dest_tables.DE1_Unit
    calc_method now
  let activity_cat_df := dest_tables.DE1_ActivityCategory
  let activity_subcat_df := dest_tables.DE1_ActivitySubcategory
  let scope_df := dest_tables.DE1_Scopes
  let activity_emmission_source_df := dest_tables.DE1_ActivityEmissionSource
  let emmission_activity_data_df ← generate_fact geo parseDate mapping
    source_df dest_tables.FE1_EmissionActivityData activity_cat_df
    activity_subcat_df scope_df activity_emmission_source_df
    activity_emmission_source_provider_df unit_df currency_df date_df
    country_df company_df company country activity_cat activity_subcat
    ReportingYear calc_method
  let currency_out ← match currency_df with
    | none => .error "AttributeError: NoneType object has no attribute to_excel"
    | some c => pure c
  pure
    { D_Company := company_df
      D_Country := country_df
      DE1_ActivityCategory := activity_cat_df
      DE1_ActivitySubcategory := activity_subcat_df
      DE1_Scopes := scope_df
      DE1_ActivityEmissionSource := activity_emmission_source_df
      D_Date := date_df
      DE1_Unit := unit_df
      D_Currency := currency_out
      DE1_ActivityEmissionSourceProvi := activity_emmission_source_provider_df
      FE1_EmissionActivityData := emmission_activity_data_df }

/-! ## Shared lemmas -/

theorem pyIn_refl (v : String) : pyIn v v = true := by
  simp only [pyIn, decide_eq_true_eq]
  exact List.infix_refl _

theorem lowerEq_self (s : String) : lowerEq s s = true := by
  simp [lowerEq]

/-- `find?` returns the first element satisfying the predicate. -/
theorem find?_first {α : Type} (p : α → Bool) :
    ∀ (pre : List α) (x : α) (suf : List α),
      (∀ a ∈ pre, p a = false) → p x = true →
      (pre ++ x :: suf).find? p = some x := by
  intro pre x suf hpre hx
  induction pre with
  | nil => simp [List.find?, hx]
  | cons a as ih =>
      have ha : p a = false := hpre a (by simp)
      simp only [List.cons_append, List.find?, ha]
      exact ih (fun b hb => hpre b (by simp [hb]))

/-- Folding `max` returns the designated maximum. -/
theorem foldl_max_eq (l : List ℤ) (a M : ℤ)
    (hmem : M = a ∨ M ∈ l) (ha : a ≤ M) (hall : ∀ x ∈ l, x ≤ M) :
    l.foldl max a = M := by
  induction l generalizing a with
  | nil => simpa using (hmem.resolve_right (by simp)).symm
  | cons x xs ih =>
      have hx : x ≤ M := hall x (by simp)
      apply ih (max a x)
      · rcases hmem with h | h
        · exact Or.inl (by omega)
        · rcases List.mem_cons.mp h with h | h
          · exact Or.inl (by omega)
          · exact Or.inr h
      · omega
      · exact fun y hy => hall y (by simp [hy])

/-! ## C3 -/

/-- C3: the dimension upsert is idempotent under its substring-containment
semantics: for every dimension table `T`, value `v` and timestamps,
upserting `v` into the result of upserting `v` into `T` yields the same
table as upserting once; in particular, after inserting `"USD"`,
upserting `"US"` adds no new row, because `"US"` is a substring match
against the existing `"USD"` row. -/
theorem C3_transform_dimension_idempotent :
    (∀ (T : List DimRow) (v : String) (t1 t2 : ℕ),
      transform_dimension v (transform_dimension v T t1) t2 =
        transform_dimension v T t1) ∧
    transform_dimension "US" (transform_dimension "USD" [] 0) 0 =
      transform_dimension "USD" [] 0 := by
  constructor
  · intro T v t1 t2
    by_cases h : T.any (fun r => pyIn v r.value) = true
    · simp [transform_dimension, h]
    · simp only [transform_dimension, h, if_false, Bool.false_eq_true,
        if_neg, List.any_append]
      simp [List.any_append, pyIn_refl, h]
  · decide

/-! ## C4 -/

/-- C4 counterexample: the claim states that when NO existing row matches
the value under the containment check the value is SKIPPED (and that a
match triggers an append).  The code does the opposite.  At the explicit
input `T = []`, `v = "USD"` no row matches, yet the result is not `T`
(a row is appended); at `T = [⟨1, "USD", 0, 0⟩]`, `v = "US"` a row
matches, yet nothing is appended. -/
theorem C4_counterexample :
    transform_dimension "USD" ([] : List DimRow) 0 ≠ [] ∧
    transform_dimension "US" [⟨1, "USD", 0, 0⟩] 0 = [⟨1, "USD", 0, 0⟩] := by
  decide

/-- C4 as amended: for a value drawn from the source, if an existing row's
`value_column` CONTAINS it (substring containment, not exact equality),
the value is skipped and the table returned unchanged; otherwise a new row
is appended carrying the value, fresh creation/update timestamps, and
`id = max(existing id column) + 1` (1 for an empty table), with all
existing rows left unchanged. -/
theorem C4_upsert_amended (T : List DimRow) (v : String) (now : ℕ) :
    (T.any (fun r => pyIn v r.value) = true →
      transform_dimension v T now = T) ∧
    (T.any (fun r => pyIn v r.value) = false →
      ∃ nr : DimRow,
        transform_dimension v T now = T ++ [nr] ∧
        nr.value = v ∧ nr.created_at = now ∧ nr.updated_at = now ∧
        (T = [] → nr.id = 1) ∧
        (∀ r ∈ T, r.id < nr.id) ∧
        (T ≠ [] → ∃ r ∈ T, nr.id = r.id + 1)) := by
  constructor
  · intro h
    simp [transform_dimension, h]
  · intro h
    match T with
    | [] =>
        refine ⟨⟨1, v, now, now⟩, ?_, rfl, rfl, rfl, fun _ => rfl, ?_, ?_⟩
        · simp [transform_dimension]
        · intro r hr; simp at hr
        · intro hne; exact absurd rfl hne
    | t :: ts =>
        refine ⟨⟨maxId t ts + 1, v, now, now⟩, ?_, rfl, rfl, rfl, ?_, ?_, ?_⟩
        · simp only [transform_dimension, h]
          simp
        · intro hcon; exact absurd hcon (by simp)
        · intro r hr
          have hle : r.id ≤ maxId t ts := by
            rcases List.mem_cons.mp hr with h1 | h1
            · subst h1
              unfold maxId
              have : ∀ (l : List DimRow) (a : ℤ), a ≤ l.foldl (fun m x => max m x.id) a := by
                intro l
                induction l with
                | nil => intro a; simp
                | cons x xs ih =>
                    intro a
                    calc a ≤ max a x.id := le_max_left _ _
                    _ ≤ xs.foldl (fun m x => max m x.id) (max a x.id) := ih _
              exact this ts r.id
            · unfold maxId
              have : ∀ (l : List DimRow) (a : ℤ) (x : DimRow), x ∈ l →
                  x.id ≤ l.foldl (fun m y => max m y.id) a := by
                intro l
                induction l with
                | nil => intro a x hx; simp at hx
                | cons z zs ih =>
                    intro a x hx
                    rcases List.mem_cons.mp hx with h2 | h2
                    · subst h2
                      calc x.id ≤ max a x.id := le_max_right _ _
                      _ ≤ zs.foldl (fun m y => max m y.id) (max a x.id) := by
                            have : ∀ (l : List DimRow) (a : ℤ), a ≤ l.foldl (fun m y => max m y.id) a := by
                              intro l
                              induction l with
                              | nil => intro a; simp
                              | cons w ws ihw =>
                                  intro a
                                  calc a ≤ max a w.id := le_max_left _ _
                                  _ ≤ ws.foldl (fun m y => max m y.id) (max a w.id) := ihw _
                            exact this _ _
                    · exact ih _ x h2
              exact this ts t.id r h1
          show r.id < maxId t ts + 1
          omega
        · intro _
          have hmem : maxId t ts = t.id ∨ ∃ r ∈ ts, maxId t ts = r.id := by
            unfold maxId
            have : ∀ (l : List DimRow) (a : ℤ),
                l.foldl (fun m x => max m x.id) a = a ∨
                ∃ r ∈ l, l.foldl (fun m x => max m x.id) a = r.id := by
              intro l
              induction l with
              | nil => intro a; exact Or.inl rfl
              | cons x xs ih =>
                  intro a
                  rcases ih (max a x.id) with h1 | h1
                  · rcases le_or_lt x.id a with h2 | h2
                    · left
                      simp only [List.foldl_cons, h1]
                      omega
                    · right
                      exact ⟨x, by simp, by simp only [List.foldl_cons, h1]; omega⟩
                  · right
                    obtain ⟨r, hr, he⟩ := h1
                    exact ⟨r, by simp [hr], he⟩
            exact this ts t.id
          rcases hmem with h1 | h1
          · exact ⟨t, by simp, by simp [h1]⟩
          · obtain ⟨r, hr, he⟩ := h1
            exact ⟨r, by simp [hr], by simp [he]⟩

/-- Witness for C4: concrete upsert of `"USD"` into a table holding only
an `"EUR"` row. -/
theorem C4_upsert_amended_witness :
    (([⟨5, "EUR", 3, 3⟩] : List DimRow).any (fun r => pyIn "USD" r.value)
        = false) ∧
    (∃ nr : DimRow,
      transform_dimension "USD" [⟨5, "EUR", 3, 3⟩] 7 =
        [⟨5, "EUR", 3, 3⟩] ++ [nr] ∧
      nr.value = "USD" ∧ nr.created_at = 7 ∧ nr.updated_at = 7 ∧
      (([⟨5, "EUR", 3, 3⟩] : List DimRow) = [] → nr.id = 1) ∧
      (∀ r ∈ ([⟨5, "EUR", 3, 3⟩] : List DimRow), r.id < nr.id) ∧
      (([⟨5, "EUR", 3, 3⟩] : List DimRow) ≠ [] →
        ∃ r ∈ ([⟨5, "EUR", 3, 3⟩] : List DimRow), nr.id = r.id + 1)) :=
  ⟨by decide, (C4_upsert_amended [⟨5, "EUR", 3, 3⟩] "USD" 7).2 (by decide)⟩

/-! ## C5 -/

/-- C5: `lookup_value` returns the `return_column` value of the first
matching row in table order, where matching compares string
representations case-insensitively (`lowerEq (pyStr _) (pyStr _)`); it
returns null whenever the table is empty, the match value is null, or no
row matches. -/
theorem C5_lookup_value_spec (df : Table) (c ret : String) (lv : PyVal) :
    (df.rows = [] → lookup_value df c lv ret = .ok PyVal.vnull) ∧
    (lookup_value df c PyVal.vnull ret = .ok PyVal.vnull) ∧
    ((∀ row ∈ df.rows,
        lowerEq (pyStr (rowGet row c)) (pyStr lv) = false) →
      c ∈ df.cols → ret ∈ df.cols →
      lookup_value df c lv ret = .ok PyVal.vnull) ∧
    (∀ pre row suf, df.rows = pre ++ row :: suf →
      (∀ p ∈ pre, lowerEq (pyStr (rowGet p c)) (pyStr lv) = false) →
      lowerEq (pyStr (rowGet row c)) (pyStr lv) = true →
      lv ≠ PyVal.vnull → c ∈ df.cols → ret ∈ df.cols →
      lookup_value df c lv ret = .ok (rowGet row ret)) := by
  refine ⟨?_, ?_, ?_, ?_⟩
  · intro h
    simp [lookup_value, h]
  · simp [lookup_value]
  · intro hall hc hret
    by_cases hrows : df.rows = []
    · simp [lookup_value, hrows]
    · by_cases hnull : lv = PyVal.vnull
      · simp [lookup_value, hnull]
      · have hfind : df.rows.find?
            (fun r => lowerEq (pyStr (rowGet r c)) (pyStr lv)) = none :=
          List.find?_eq_none.mpr (fun r hr => by simp [hall r hr])
        simp only [lookup_value, hc, hret]
        rw [if_neg, if_neg, if_neg, hfind]
        · simp
        · simp
        · simp only [Bool.or_eq_true, List.isEmpty_iff, beq_iff_eq]
          push_neg
          exact ⟨hrows, hnull⟩
  · intro pre row suf hsplit hpre hrow hnull hc hret
    have hne : df.rows ≠ [] := by
      rw [hsplit]; simp
    have hfind : df.rows.find?
        (fun r => lowerEq (pyStr (rowGet r c)) (pyStr lv)) = some row := by
      rw [hsplit]
      exact find?_first _ pre row suf hpre hrow
    simp only [lookup_value, hc, hret]
    rw [if_neg, if_neg, if_neg, hfind]
    · simp
    · simp
    · simp only [Bool.or_eq_true, List.isEmpty_iff, beq_iff_eq]
      push_neg
      exact ⟨hne, hnull⟩

/-- Witness for C5: the case-insensitive exemplar — `lookup(T, "Code",
"usd", "ID")` matches a row with `Code = "USD"` and returns its id. -/
theorem C5_lookup_value_spec_witness :
    lookup_value ⟨["Code", "ID"], [[("Code", PyVal.vstr "USD"),
        ("ID", PyVal.vint 1)]]⟩ "Code" (PyVal.vstr "usd") "ID" =
      .ok (rowGet [("Code", PyVal.vstr "USD"), ("ID", PyVal.vint 1)] "ID") :=
  (C5_lookup_value_spec ⟨["Code", "ID"], [[("Code", PyVal.vstr "USD"),
      ("ID", PyVal.vint 1)]]⟩ "Code" "ID" (PyVal.vstr "usd")).2.2.2
    [] [("Code", PyVal.vstr "USD"), ("ID", PyVal.vint 1)] [] rfl
    (by intro p hp; simp at hp) (by decide) (by decide) (by decide)
    (by decide)

/-! ## C6 -/

/-- C6 counterexample: the claim demands a loud `ColumnNotFound`-style
failure for EVERY table whose `return_column` is missing, but on a table
with zero rows `lookup_value` returns early with null before any column is
touched: at the explicit input below, `"ID"` is not a column, yet the
result is `ok null`, not an error. -/
theorem C6_counterexample :
    lookup_value ⟨["Code"], []⟩ "Code" (PyVal.vstr "x") "ID" =
      .ok PyVal.vnull := by
  rfl

/-- C6 as amended: for every table with at least one row and a non-null
match value, a `return_column` that is not a column of the table makes
`lookup_value` fail loudly with a `KeyError` rather than return null (the
error may equally name the `match_column` when that one is missing too,
since `df[lookup_column]` is evaluated first). -/
theorem C6_lookup_missing_return_column (df : Table) (c ret : String)
    (lv : PyVal) (h1 : df.rows ≠ []) (h2 : lv ≠ PyVal.vnull)
    (h3 : ¬ ret ∈ df.cols) :
    ∃ e, lookup_value df c lv ret = .error e := by
  have hcond : (df.rows.isEmpty || lv == PyVal.vnull) = false := by
    obtain ⟨r, rs, hrw⟩ : ∃ r rs, df.rows = r :: rs := by
      cases hx : df.rows with
      | nil => exact absurd hx h1
      | cons a l => exact ⟨a, l, rfl⟩
    rw [hrw]
    simp only [List.isEmpty_cons, Bool.false_or, beq_eq_false_iff_ne, ne_eq]
    exact h2
  by_cases hc : c ∈ df.cols
  · exact ⟨"KeyError: " ++ ret, by simp [lookup_value, hcond, hc, h3]⟩
  · exact ⟨"KeyError: " ++ c, by simp [lookup_value, hcond, hc]⟩

/-- Witness for C6: a one-row table with a missing return column. -/
theorem C6_lookup_missing_return_column_witness :
    ∃ e, lookup_value ⟨["Code"], [[("Code", PyVal.vstr "USD")]]⟩ "Code"
      (PyVal.vstr "x") "ID" = .error e :=
  C6_lookup_missing_return_column ⟨["Code"], [[("Code", PyVal.vstr "USD")]]⟩
    "Code" "ID" (PyVal.vstr "x") (by decide) (by decide) (by decide)

/-! ## C9 -/

/-- C9: the flight-distance calculator: result depends only on the
trimmed, upper-cased codes; null on a null/empty input and on a code
absent from the static table; otherwise the external geodesic kernel's
distance rounded to 2 decimals; `distance("JFK","JFK")` is `0.0` (the
geodesic of a point to itself being 0) and `distance("XXX","JFK")` is
null. -/
theorem C9_calculate_airport_distance_spec (geo : ℚ × ℚ → ℚ × ℚ → ℚ) :
    (∀ d, calculate_airport_distance geo PyVal.vnull d = none) ∧
    (∀ d, calculate_airport_distance geo (PyVal.vstr "") d = none) ∧
    (∀ o, calculate_airport_distance geo o PyVal.vnull = none) ∧
    (∀ o, calculate_airport_distance geo o (PyVal.vstr "") = none) ∧
    (∀ s t d, strUpper (strTrim s) = strUpper (strTrim t) →
      s ≠ "" → t ≠ "" →
      calculate_airport_distance geo (PyVal.vstr s) d =
        calculate_airport_distance geo (PyVal.vstr t) d) ∧
    (∀ s d, get_airport_coordinates s = none →
      calculate_airport_distance geo (PyVal.vstr s) d = none) ∧
    (∀ s t oc dc, get_airport_coordinates s = some oc →
      get_airport_coordinates t = some dc →
      calculate_airport_distance geo (PyVal.vstr s) (PyVal.vstr t) =
        some (pyRound2 (geo oc dc))) ∧
    ((∀ p, geo p p = 0) →
      calculate_airport_distance geo (PyVal.vstr "JFK") (PyVal.vstr "JFK") =
        some 0) ∧
    calculate_airport_distance geo (PyVal.vstr "XXX") (PyVal.vstr "JFK") =
      none := by
  have hgacE : get_airport_coordinates "" = none := rfl
  have key : ∀ s t oc dc, get_airport_coordinates s = some oc →
      get_airport_coordinates t = some dc →
      calculate_airport_distance geo (PyVal.vstr s) (PyVal.vstr t) =
        some (pyRound2 (geo oc dc)) := by
    intro s t oc dc hs ht
    have hsne : s ≠ "" := by
      rintro rfl; rw [hgacE] at hs; exact Option.noConfusion hs
    have htne : t ≠ "" := by
      rintro rfl; rw [hgacE] at ht; exact Option.noConfusion ht
    simp only [calculate_airport_distance]
    rw [if_neg (by simp [pyTruthy, hsne, htne])]
    simp [hs, ht]
  have unknown : ∀ s d, get_airport_coordinates s = none →
      calculate_airport_distance geo (PyVal.vstr s) d = none := by
    intro s d hnone
    by_cases hs : s = ""
    · subst hs; simp [calculate_airport_distance, pyTruthy]
    · by_cases hd : pyTruthy d = true
      · simp only [calculate_airport_distance]
        rw [if_neg (not_not_intro ⟨by simp [pyTruthy, hs], hd⟩)]
        cases d <;> simp [hnone]
      · simp only [calculate_airport_distance]
        rw [if_pos (by simp [hd])]
  refine ⟨?_, ?_, ?_, ?_, ?_, unknown, key, ?_, ?_⟩
  · intro d; simp [calculate_airport_distance, pyTruthy]
  · intro d; simp [calculate_airport_distance, pyTruthy]
  · intro o; simp [calculate_airport_distance, pyTruthy]
  · intro o; simp [calculate_airport_distance, pyTruthy]
  · intro s t d hEq hs ht
    have hg : get_airport_coordinates s = get_airport_coordinates t := by
      simp only [get_airport_coordinates, hs, ht, if_neg]
      rw [hEq]
    by_cases hd : pyTruthy d = true
    · simp only [calculate_airport_distance]
      rw [if_neg (not_not_intro ⟨by simp [pyTruthy, hs], hd⟩),
        if_neg (not_not_intro ⟨by simp [pyTruthy, ht], hd⟩)]
      cases d <;> simp [hg]
    · simp only [calculate_airport_distance]
      rw [if_pos (by simp [hd]), if_pos (by simp [hd])]
  · intro hgeo
    have h := key "JFK" "JFK" (40.6413, -73.7781) (40.6413, -73.7781) rfl rfl
    rw [h, hgeo]
    norm_num [pyRound2]
  · exact unknown "XXX" (PyVal.vstr "JFK") rfl

/-- Witness for C9: the zero geodesic kernel at the concrete exemplars. -/
theorem C9_calculate_airport_distance_spec_witness :
    calculate_airport_distance (fun _ _ => 0) (PyVal.vstr "JFK")
        (PyVal.vstr "JFK") = some 0 ∧
    calculate_airport_distance (fun _ _ => 0) (PyVal.vstr "XXX")
        (PyVal.vstr "JFK") = none :=
  ⟨(C9_calculate_airport_distance_spec (fun _ _ => 0)).2.2.2.2.2.2.2.1
      (fun _ => rfl),
    (C9_calculate_airport_distance_spec (fun _ _ => 0)).2.2.2.2.2.2.2.2⟩

/-! ## C8 -/

theorem dedupDateGo_key_not_mem_seen :
    ∀ (rows : List DateRow) (seen : List String) (r : DateRow),
      r ∈ dedupDateGo seen rows → r.DateKey ∉ seen := by
  intro rows
  induction rows with
  | nil => intro seen r hr; simp [dedupDateGo] at hr
  | cons x xs ih =>
      intro seen r hr
      by_cases hx : x.DateKey ∈ seen
      · rw [dedupDateGo, if_pos hx] at hr
        exact ih seen r hr
      · rw [dedupDateGo, if_neg hx] at hr
        rcases List.mem_cons.mp hr with h | h
        · subst h; exact hx
        · have := ih (x.DateKey :: seen) r h
          intro hc; exact this (by simp [hc])

theorem dedupDateGo_keys_nodup :
    ∀ (rows : List DateRow) (seen : List String),
      ((dedupDateGo seen rows).map (·.DateKey)).Nodup := by
  intro rows
  induction rows with
  | nil => intro seen; simp [dedupDateGo]
  | cons x xs ih =>
      intro seen
      by_cases hx : x.DateKey ∈ seen
      · rw [dedupDateGo, if_pos hx]; exact ih seen
      · rw [dedupDateGo, if_neg hx]
        simp only [List.map_cons, List.nodup_cons]
        refine ⟨?_, ih (x.DateKey :: seen)⟩
        intro hmem
        obtain ⟨r, hr, hk⟩ := List.mem_map.mp hmem
        have := dedupDateGo_key_not_mem_seen xs (x.DateKey :: seen) r hr
        exact this (by simp [hk])

theorem dedupDateGo_mem_key_iff :
    ∀ (rows : List DateRow) (seen : List String) (k : String),
      k ∈ (dedupDateGo seen rows).map (·.DateKey) ↔
        (k ∈ rows.map (·.DateKey) ∧ k ∉ seen) := by
  intro rows
  induction rows with
  | nil => intro seen k; simp [dedupDateGo]
  | cons x xs ih =>
      intro seen k
      by_cases hx : x.DateKey ∈ seen
      · rw [dedupDateGo, if_pos hx, ih]
        simp only [List.map_cons, List.mem_cons]
        constructor
        · rintro ⟨h1, h2⟩; exact ⟨Or.inr h1, h2⟩
        · rintro ⟨h1 | h1, h2⟩
          · subst h1; exact absurd hx h2
          · exact ⟨h1, h2⟩
      · rw [dedupDateGo, if_neg hx]
        simp only [List.map_cons, List.mem_cons, ih]
        constructor
        · rintro (h | ⟨h1, h2⟩)
          · subst h; exact ⟨Or.inl rfl, hx⟩
          · exact ⟨Or.inr h1, fun hc => h2 (by simp [hc])⟩
        · rintro ⟨h1 | h1, h2⟩
          · exact Or.inl h1
          · by_cases hk : k = x.DateKey
            · exact Or.inl hk
            · exact Or.inr ⟨h1, by simp [h2, hk]⟩

theorem dedupDateGo_sublist :
    ∀ (rows : List DateRow) (seen : List String),
      (dedupDateGo seen rows).Sublist rows := by
  intro rows
  induction rows with
  | nil => intro seen; simp [dedupDateGo]
  | cons x xs ih =>
      intro seen
      by_cases hx : x.DateKey ∈ seen
      · rw [dedupDateGo, if_pos hx]
        exact (ih seen).trans (List.sublist_cons_self x xs)
      · rw [dedupDateGo, if_neg hx]
        exact List.Sublist.cons₂ x (ih (x.DateKey :: seen))

theorem dedupDateGo_find :
    ∀ (rows : List DateRow) (seen : List String) (r : DateRow),
      r ∈ dedupDateGo seen rows →
      rows.find? (fun x => x.DateKey == r.DateKey) = some r := by
  intro rows
  induction rows with
  | nil => intro seen r hr; simp [dedupDateGo] at hr
  | cons x xs ih =>
      intro seen r hr
      by_cases hx : x.DateKey ∈ seen
      · rw [dedupDateGo, if_pos hx] at hr
        have hr' := dedupDateGo_key_not_mem_seen xs seen r hr
        have hne : (x.DateKey == r.DateKey) = false := by
          simp only [beq_eq_false_iff_ne, ne_eq]
          intro hc; exact hr' (hc ▸ hx)
        simp only [List.find?, hne]
        exact ih seen r hr
      · rw [dedupDateGo, if_neg hx] at hr
        rcases List.mem_cons.mp hr with h | h
        · subst h
          simp [List.find?]
        · have hr' := dedupDateGo_key_not_mem_seen xs (x.DateKey :: seen) r h
          have hne : (x.DateKey == r.DateKey) = false := by
            simp only [beq_eq_false_iff_ne, ne_eq]
            intro hc; exact hr' (by simp [hc])
          simp only [List.find?, hne]
          exact ih (x.DateKey :: seen) r h

/-- C8: with a mapped, existing, datetime-typed source date column, the
date-dimension builder de-duplicates its rows by `DateKey`: the result has
pairwise-distinct `DateKey`s covering exactly the `DateKey`s of the raw
per-source-row table, is an order-preserving selection of it, and each
kept row is the FIRST raw row bearing its `DateKey`. -/
theorem C8_date_dedup (mapping : Mapping) (source_df : Table) (year : ℤ)
    (now : ℕ) (e : MappingEntry) (sc : String)
    (cells : List (ℕ × ℕ × ℕ)) (res : List DateRow)
    (h1 : mapGet mapping "DateKey" = some e)
    (h2 : e.source_column = some sc) (h3 : sc ∈ source_df.cols)
    (h4 : dateCells source_df sc = some cells)
    (h5 : transform_D_Date mapping source_df year now = .ok res) :
    ((res.map (·.DateKey)).Nodup) ∧
    (∀ k, k ∈ res.map (·.DateKey) ↔
      k ∈ (cells.map (fun c => mkDateRow now c.1 c.2.1 c.2.2)).map
        (·.DateKey)) ∧
    res.Sublist (cells.map (fun c => mkDateRow now c.1 c.2.1 c.2.2)) ∧
    (∀ r ∈ res,
      (cells.map (fun c => mkDateRow now c.1 c.2.1 c.2.2)).find?
        (fun x => x.DateKey == r.DateKey) = some r) := by
  have heval : transform_D_Date mapping source_df year now =
      .ok (dedupByDateKey
        (cells.map (fun c => mkDateRow now c.1 c.2.1 c.2.2))) := by
    unfold transform_D_Date
    rw [h1]
    simp [h2, h3, h4]
    rfl
  rw [heval] at h5
  have hres := Except.ok.inj h5
  subst hres
  refine ⟨dedupDateGo_keys_nodup _ _, ?_, dedupDateGo_sublist _ _,
    fun r hr => dedupDateGo_find _ _ r hr⟩
  intro k
  rw [dedupByDateKey] at *
  rw [dedupDateGo_mem_key_iff]
  simp

/-- The concrete source table of the C8 witness: a date column with a
repeated date. -/
def c8Source : Table :=
  ⟨["Date"], [[("Date", PyVal.vdate 2024 5 10)],
    [("Date", PyVal.vdate 2024 5 10)], [("Date", PyVal.vdate 2023 1 2)]]⟩

/-- Witness for C8: three source rows, two distinct dates, a two-row
de-duplicated result. -/
theorem C8_date_dedup_witness :
    ((([mkDateRow 0 2024 5 10, mkDateRow 0 2023 1 2]).map
        (·.DateKey)).Nodup) ∧
    (∀ k, k ∈ ([mkDateRow 0 2024 5 10, mkDateRow 0 2023 1 2]).map
        (·.DateKey) ↔
      k ∈ (([(2024, 5, 10), (2024, 5, 10), (2023, 1, 2)] :
          List (ℕ × ℕ × ℕ)).map
        (fun c => mkDateRow 0 c.1 c.2.1 c.2.2)).map (·.DateKey)) ∧
    ([mkDateRow 0 2024 5 10, mkDateRow 0 2023 1 2]).Sublist
      (([(2024, 5, 10), (2024, 5, 10), (2023, 1, 2)] :
          List (ℕ × ℕ × ℕ)).map (fun c => mkDateRow 0 c.1 c.2.1 c.2.2)) ∧
    (∀ r ∈ ([mkDateRow 0 2024 5 10, mkDateRow 0 2023 1 2]),
      (([(2024, 5, 10), (2024, 5, 10), (2023, 1, 2)] :
          List (ℕ × ℕ × ℕ)).map
        (fun c => mkDateRow 0 c.1 c.2.1 c.2.2)).find?
        (fun x => x.DateKey == r.DateKey) = some r) :=
  C8_date_dedup [("DateKey", ⟨some "Date", none, none, none⟩)] c8Source
    2024 0 ⟨some "Date", none, none, none⟩ "Date"
    [(2024, 5, 10), (2024, 5, 10), (2023, 1, 2)]
    [mkDateRow 0 2024 5 10, mkDateRow 0 2023 1 2]
    rfl rfl (by decide) rfl rfl

/-! ## The fact generator: structural lemmas used by C1, C2 and C10 -/

theorem amf_amounts_preserves (geo : ℚ × ℚ → ℚ × ℚ → ℚ) (source_df : Table)
    (source_row : List (String × PyVal)) (oc dc : Option String)
    (cm ac asc : String) (row : FactRow) (f : String) (mc : MappingEntry)
    (row' : FactRow)
    (h : amf_amounts geo source_df source_row oc dc cm ac asc row f mc =
      .ok row') :
    row'.EmissionActivityID = row.EmissionActivityID ∧
    row'.ActivityEmissionSourceID = row.ActivityEmissionSourceID ∧
    row'.UnitID = row.UnitID ∧
    row'.EmissionFactorID = row.EmissionFactorID := by
  unfold amf_amounts at h
  simp only [bind, Except.bind, pure, Except.pure] at h
  repeat' split at h
  all_goals first
    | (cases h; exact ⟨rfl, rfl, rfl, rfl⟩)
    | (exact Except.noConfusion h)

theorem amf_provider_preserves (source_df : Table)
    (source_row : List (String × PyVal)) (pdf : List ProviderRow)
    (row : FactRow) (f : String) (mc : MappingEntry) (row' : FactRow)
    (h : amf_provider source_df source_row pdf row f mc = .ok row') :
    row'.EmissionActivityID = row.EmissionActivityID ∧
    row'.ActivityEmissionSourceID = row.ActivityEmissionSourceID ∧
    row'.UnitID = row.UnitID ∧
    row'.EmissionFactorID = row.EmissionFactorID := by
  unfold amf_provider at h
  simp only [pure, Except.pure] at h
  repeat' split at h
  all_goals first
    | (cases h; exact ⟨rfl, rfl, rfl, rfl⟩)
    | (exact Except.noConfusion h)

theorem amf_currency_preserves (source_df : Table)
    (source_row : List (String × PyVal))
    (cdf : Option (List CurrencyRow)) (row : FactRow) (f : String)
    (mc : MappingEntry) (row' : FactRow)
    (h : amf_currency source_df source_row cdf row f mc = .ok row') :
    row'.EmissionActivityID = row.EmissionActivityID ∧
    row'.ActivityEmissionSourceID = row.ActivityEmissionSourceID ∧
    row'.UnitID = row.UnitID ∧
    row'.EmissionFactorID = row.EmissionFactorID := by
  unfold amf_currency at h
  simp only [pure, Except.pure] at h
  repeat' split at h
  all_goals first
    | (cases h; exact ⟨rfl, rfl, rfl, rfl⟩)
    | (exact Except.noConfusion h)

theorem apply_mapping_field_preserves (geo : ℚ × ℚ → ℚ × ℚ → ℚ)
    (source_df : Table) (source_row : List (String × PyVal))
    (oc dc : Option String) (cm ac asc : String) (pdf : List ProviderRow)
    (cdf : Option (List CurrencyRow)) (row : FactRow) (f : String)
    (mc : MappingEntry) (row' : FactRow)
    (h : apply_mapping_field geo source_df source_row oc dc cm ac asc pdf
      cdf row f mc = .ok row') :
    row'.EmissionActivityID = row.EmissionActivityID ∧
    row'.ActivityEmissionSourceID = row.ActivityEmissionSourceID ∧
    row'.UnitID = row.UnitID ∧
    row'.EmissionFactorID = row.EmissionFactorID := by
  unfold apply_mapping_field at h
  simp only [bind, Except.bind, pure, Except.pure] at h
  cases h1 : amf_amounts geo source_df source_row oc dc cm ac asc row f mc with
  | error e => rw [h1] at h; exact Except.noConfusion h
  | ok r1 =>
      rw [h1] at h
      dsimp only at h
      cases h2 : amf_provider source_df source_row pdf r1 f mc with
      | error e => rw [h2] at h; exact Except.noConfusion h
      | ok r2 =>
          rw [h2] at h
          dsimp only at h
          cases h3 : amf_currency source_df source_row cdf r2 f mc with
          | error e => rw [h3] at h; exact Except.noConfusion h
          | ok r3 =>
              rw [h3] at h
              dsimp only at h
              cases h
              have p1 := amf_amounts_preserves geo source_df source_row oc dc
                cm ac asc row f mc r1 h1
              have p2 := amf_provider_preserves source_df source_row pdf r1
                f mc r2 h2
              have p3 := amf_currency_preserves source_df source_row cdf r2
                f mc row' h3
              exact ⟨by rw [p3.1, p2.1, p1.1], by rw [p3.2.1, p2.2.1, p1.2.1],
                by rw [p3.2.2.1, p2.2.2.1, p1.2.2.1],
                by rw [p3.2.2.2, p2.2.2.2, p1.2.2.2]⟩

/-- The id sequence `1, 2, ..., n`. -/
def seqIds (n : ℕ) : List ℤ := (List.range n).map (fun (i : ℕ) => (i : ℤ) + 1)

theorem seqIds_succ (n : ℕ) : seqIds (n + 1) = seqIds n ++ [(n : ℤ) + 1] := by
  simp [seqIds, List.range_succ]

theorem mem_seqIds {x : ℤ} {n : ℕ} : x ∈ seqIds n ↔ 1 ≤ x ∧ x ≤ (n : ℤ) := by
  constructor
  · intro hx
    obtain ⟨i, hi, he⟩ := List.mem_map.mp hx
    rw [List.mem_range] at hi
    omega
  · rintro ⟨h1, h2⟩
    exact List.mem_map.mpr
      ⟨(x - 1).toNat, List.mem_range.mpr (by omega), by omega⟩

/-- On a result table whose ids are exactly `1..len`,
`get_next_incremental_id` yields `len + 1`. -/
theorem get_next_of_seq (acc : List FactRow)
    (h : acc.map (·.EmissionActivityID) = seqIds acc.length) :
    get_next_incremental_id_fact acc = (acc.length : ℤ) + 1 := by
  cases acc with
  | nil => simp [get_next_incremental_id_fact]
  | cons r rs =>
      simp only [get_next_incremental_id_fact]
      have hfm : rs.foldl (fun m x => max m x.EmissionActivityID)
          r.EmissionActivityID =
          (rs.map (·.EmissionActivityID)).foldl max r.EmissionActivityID := by
        rw [List.foldl_map]
      rw [hfm]
      have hids : r.EmissionActivityID :: rs.map (·.EmissionActivityID) =
          seqIds (rs.length + 1) := by
        simpa using h
      have hM : ((rs.length : ℤ) + 1) ∈
          r.EmissionActivityID :: rs.map (·.EmissionActivityID) := by
        rw [hids]
        exact mem_seqIds.mpr ⟨by omega, by push_cast; omega⟩
      have hr : r.EmissionActivityID ∈ seqIds (rs.length + 1) := by
        rw [← hids]; simp
      have hrle : r.EmissionActivityID ≤ (rs.length : ℤ) + 1 := by
        have := (mem_seqIds.mp hr).2
        push_cast at this
        omega
      have hall : ∀ x ∈ rs.map (·.EmissionActivityID),
          x ≤ (rs.length : ℤ) + 1 := by
        intro x hx
        have hx2 : x ∈ seqIds (rs.length + 1) := by
          rw [← hids]; simp [hx]
        have := (mem_seqIds.mp hx2).2
        push_cast at this
        omega
      have := foldl_max_eq (rs.map (·.EmissionActivityID))
        r.EmissionActivityID ((rs.length : ℤ) + 1)
        (by rcases List.mem_cons.mp hM with h1 | h1
            · exact Or.inl h1
            · exact Or.inr h1)
        hrle hall
      rw [this]
      simp only [List.length_cons]
      push_cast
      omega

section FactLemmas

variable (geo : ℚ × ℚ → ℚ × ℚ → ℚ) (parseDate : PyVal → Option (ℕ × ℕ × ℕ))
  (mappings : Mapping) (source_df : Table)
  (activity_cat_df : List CategoryRow) (activity_subcat_df : List SubcatRow)
  (provider_df : List ProviderRow) (currency_df : Option (List CurrencyRow))
  (date_df : List DateRow) (country_df : List CountryRow)
  (company_df : List CompanyRow)
  (company country activity_cat activity_subcat : String)
  (reporting_year : ℤ) (calc_method : String) (es u : Option ℤ)
  (f : Option String) (oc dc : Option String)

/-- The mapping loop never touches the primary key or the run-wide
emission triple of the row under construction. -/
theorem mappings_foldlM_preserves :
    ∀ (ms : Mapping) (row row' : FactRow),
      ms.foldlM (fun row p =>
        apply_mapping_field geo source_df source_row oc dc calc_method
          activity_cat activity_subcat provider_df currency_df row
          p.1 p.2) row = .ok row' →
      row'.EmissionActivityID = row.EmissionActivityID ∧
      row'.ActivityEmissionSourceID = row.ActivityEmissionSourceID ∧
      row'.UnitID = row.UnitID ∧
      row'.EmissionFactorID = row.EmissionFactorID := by
  intro ms
  induction ms with
  | nil =>
      intro row row' h
      simp only [List.foldlM, pure, Except.pure] at h
      cases h
      exact ⟨rfl, rfl, rfl, rfl⟩
  | cons m ms ih =>
      intro row row' h
      rw [List.foldlM_cons] at h
      simp only [bind, Except.bind] at h
      cases h1 : apply_mapping_field geo source_df source_row oc dc
          calc_method activity_cat activity_subcat provider_df currency_df
          row m.1 m.2 with
      | error e => rw [h1] at h; exact Except.noConfusion h
      | ok r1 =>
          rw [h1] at h
          dsimp only at h
          obtain ⟨e1, e2, e3, e4⟩ := ih r1 row' h
          obtain ⟨d1, d2, d3, d4⟩ := apply_mapping_field_preserves geo
            source_df source_row oc dc calc_method activity_cat
            activity_subcat provider_df currency_df row m.1 m.2 r1 h1
          exact ⟨e1.trans d1, e2.trans d2, e3.trans d3, e4.trans d4⟩

end FactLemmas

section FactLemmas2

variable (geo : ℚ × ℚ → ℚ × ℚ → ℚ) (parseDate : PyVal → Option (ℕ × ℕ × ℕ))
  (mappings : Mapping) (source_df : Table)
  (activity_cat_df : List CategoryRow) (activity_subcat_df : List SubcatRow)
  (provider_df : List ProviderRow) (currency_df : Option (List CurrencyRow))
  (date_df : List DateRow) (country_df : List CountryRow)
  (company_df : List CompanyRow)
  (company country activity_cat activity_subcat : String)
  (reporting_year : ℤ) (calc_method : String) (es u : Option ℤ)
  (f : Option String) (oc dc : Option String)

/-- A successfully built fact row carries `get_next_incremental_id` of the
rows appended so far as its primary key and the run-wide emission triple
in its emission fields. -/
theorem build_fact_row_fields (result_df : List FactRow)
    (source_row : List (String × PyVal)) (row' : FactRow)
    (h : build_fact_row geo parseDate mappings source_df activity_cat_df
      activity_subcat_df provider_df currency_df date_df country_df
      company_df company country activity_cat activity_subcat
      reporting_year calc_method es u f oc dc result_df source_row =
      .ok row') :
    row'.EmissionActivityID = get_next_incremental_id_fact result_df ∧
    row'.ActivityEmissionSourceID = es ∧
    row'.UnitID = u ∧
    row'.EmissionFactorID = f := by
  unfold build_fact_row at h
  simp only [bind, Except.bind, pure, Except.pure] at h
  repeat' split at h
  all_goals first
    | exact Except.noConfusion h
    | exact mappings_foldlM_preserves geo source_df provider_df currency_df
        activity_cat activity_subcat calc_method oc dc mappings _ row' h

/-- One loop iteration appends exactly one row, and that row carries the
next incremental id and the run-wide emission triple. -/
theorem generate_fact_step_spec (result_df : List FactRow)
    (source_row : List (String × PyVal)) (res : List FactRow)
    (h : generate_fact_step geo parseDate mappings source_df
      activity_cat_df activity_subcat_df provider_df currency_df date_df
      country_df company_df company country activity_cat activity_subcat
      reporting_year calc_method es u f oc dc result_df source_row =
      .ok res) :
    ∃ nr : FactRow, res = result_df ++ [nr] ∧
      nr.EmissionActivityID = get_next_incremental_id_fact result_df ∧
      nr.ActivityEmissionSourceID = es ∧
      nr.UnitID = u ∧
      nr.EmissionFactorID = f := by
  unfold generate_fact_step at h
  simp only [bind, Except.bind, pure, Except.pure] at h
  cases h1 : build_fact_row geo parseDate mappings source_df
      activity_cat_df activity_subcat_df provider_df currency_df date_df
      country_df company_df company country activity_cat activity_subcat
      reporting_year calc_method es u f oc dc result_df source_row with
  | error e => rw [h1] at h; exact Except.noConfusion h
  | ok nr =>
      rw [h1] at h
      dsimp only at h
      cases h
      obtain ⟨e1, e2, e3, e4⟩ := build_fact_row_fields geo parseDate
        mappings source_df activity_cat_df activity_subcat_df provider_df
        currency_df date_df country_df company_df company country
        activity_cat activity_subcat reporting_year calc_method es u f oc
        dc result_df source_row nr h1
      exact ⟨nr, rfl, e1, e2, e3, e4⟩

/-- The per-row loop appends one row per source row; the appended rows all
carry the run-wide emission triple. -/
theorem genfact_fold_spec :
    ∀ (rows : List (List (String × PyVal))) (acc res : List FactRow),
      List.foldlM (generate_fact_step geo parseDate mappings source_df
        activity_cat_df activity_subcat_df provider_df currency_df date_df
        country_df company_df company country activity_cat activity_subcat
        reporting_year calc_method es u f oc dc) acc rows = .ok res →
      res.length = acc.length + rows.length ∧
      ∃ tail, res = acc ++ tail ∧
        ∀ r ∈ tail, r.ActivityEmissionSourceID = es ∧ r.UnitID = u ∧
          r.EmissionFactorID = f := by
  intro rows
  induction rows with
  | nil =>
      intro acc res h
      simp only [List.foldlM, pure, Except.pure] at h
      cases h
      exact ⟨by simp, [], by simp, by simp⟩
  | cons sr rows ih =>
      intro acc res h
      rw [List.foldlM_cons] at h
      simp only [bind, Except.bind] at h
      cases h1 : generate_fact_step geo parseDate mappings source_df
          activity_cat_df activity_subcat_df provider_df currency_df
          date_df country_df company_df company country activity_cat
          activity_subcat reporting_year calc_method es u f oc dc acc
          sr with
      | error e => rw [h1] at h; exact Except.noConfusion h
      | ok acc1 =>
          rw [h1] at h
          dsimp only at h
          obtain ⟨len1, tail1, htail1, hall1⟩ := ih acc1 res h
          obtain ⟨nr, hacc1, _, he2, he3, he4⟩ := generate_fact_step_spec
            geo parseDate mappings source_df activity_cat_df
            activity_subcat_df provider_df currency_df date_df country_df
            company_df company country activity_cat activity_subcat
            reporting_year calc_method es u f oc dc acc sr acc1 h1
          constructor
          · rw [len1, hacc1]
            simp only [List.length_append, List.length_cons,
              List.length_nil]
            omega
          · refine ⟨nr :: tail1, ?_, ?_⟩
            · rw [htail1, hacc1]
              simp
            · intro r hr
              rcases List.mem_cons.mp hr with h2 | h2
              · subst h2; exact ⟨he2, he3, he4⟩
              · exact hall1 r h2

/-- The per-row loop extends the id sequence `1..k` to `1..(k + new)`. -/
theorem genfact_fold_ids :
    ∀ (rows : List (List (String × PyVal))) (acc res : List FactRow),
      acc.map (·.EmissionActivityID) = seqIds acc.length →
      List.foldlM (generate_fact_step geo parseDate mappings source_df
        activity_cat_df activity_subcat_df provider_df currency_df date_df
        country_df company_df company country activity_cat activity_subcat
        reporting_year calc_method es u f oc dc) acc rows = .ok res →
      res.map (·.EmissionActivityID) = seqIds res.length := by
  intro rows
  induction rows with
  | nil =>
      intro acc res hacc h
      simp only [List.foldlM, pure, Except.pure] at h
      cases h
      exact hacc
  | cons sr rows ih =>
      intro acc res hacc h
      rw [List.foldlM_cons] at h
      simp only [bind, Except.bind] at h
      cases h1 : generate_fact_step geo parseDate mappings source_df
          activity_cat_df activity_subcat_df provider_df currency_df
          date_df country_df company_df company country activity_cat
          activity_subcat reporting_year calc_method es u f oc dc acc
          sr with
      | error e => rw [h1] at h; exact Except.noConfusion h
      | ok acc1 =>
          rw [h1] at h
          dsimp only at h
          obtain ⟨nr, hacc1, hid, _, _, _⟩ := generate_fact_step_spec
            geo parseDate mappings source_df activity_cat_df
            activity_subcat_df provider_df currency_df date_df country_df
            company_df company country activity_cat activity_subcat
            reporting_year calc_method es u f oc dc acc sr acc1 h1
          refine ih acc1 res ?_ h
          rw [hacc1, List.map_append, hacc]
          have hnr : nr.EmissionActivityID = (acc.length : ℤ) + 1 :=
            hid.trans (get_next_of_seq acc hacc)
          simp only [List.map_cons, List.map_nil, hnr]
          rw [← seqIds_succ]
          congr 1
          simp

end FactLemmas2

/-! ## C1 -/

/-- C1: for every run of the fact generator over a source table with `n`
rows — any mapping, destination fact table and dimension tables — the
`EmissionActivityID` column of the produced fact table is exactly
`1, 2, ..., n` in source-row order, and the result does not depend on the
rows of the pre-existing destination fact table (the output starts from an
empty structure). -/
theorem C1_emission_activity_ids (geo : ℚ × ℚ → ℚ × ℚ → ℚ)
    (parseDate : PyVal → Option (ℕ × ℕ × ℕ)) (mappings : Mapping)
    (source_df : Table) (dest_df : List FactRow)
    (activity_cat_df : List CategoryRow)
    (activity_subcat_df : List SubcatRow) (scope_df : List ScopeRow)
    (activity_emission_source_df : List EmissionSourceRow)
    (provider_df : List ProviderRow) (unit_df : List UnitRow)
    (currency_df : Option (List CurrencyRow)) (date_df : List DateRow)
    (country_df : List CountryRow) (company_df : List CompanyRow)
    (company country activity_cat activity_subcat : String)
    (reporting_year : ℤ) (calc_method : String) :
    (∀ dest1 dest2 : List FactRow,
      generate_fact geo parseDate mappings source_df dest1
        activity_cat_df activity_subcat_df scope_df
        activity_emission_source_df provider_df unit_df currency_df
        date_df country_df company_df company country activity_cat
        activity_subcat reporting_year calc_method =
      generate_fact geo parseDate mappings source_df dest2
        activity_cat_df activity_subcat_df scope_df
        activity_emission_source_df provider_df unit_df currency_df
        date_df country_df company_df company country activity_cat
        activity_subcat reporting_year calc_method) ∧
    (∀ res : List FactRow,
      generate_fact geo parseDate mappings source_df dest_df
        activity_cat_df activity_subcat_df scope_df
        activity_emission_source_df provider_df unit_df currency_df
        date_df country_df company_df company country activity_cat
        activity_subcat reporting_year calc_method = .ok res →
      res.length = source_df.rows.length ∧
      res.map (·.EmissionActivityID) = seqIds source_df.rows.length) := by
  constructor
  · intro dest1 dest2
    rfl
  · intro res h
    simp only [generate_fact, bind, Except.bind] at h
    cases hfe : find_emission_ids mappings activity_subcat
        activity_subcat_df activity_emission_source_df country_df country
        calc_method with
    | error e => rw [hfe] at h; exact Except.noConfusion h
    | ok ids =>
    rw [hfe] at h
    dsimp only at h
    cases hpc : generate_fact_preloop_check mappings calc_method
        activity_cat activity_subcat
        (detect_airport_columns source_df.cols).1
        (detect_airport_columns source_df.cols).2 with
    | error e => rw [hpc] at h; exact Except.noConfusion h
    | ok v =>
    rw [hpc] at h
    dsimp only at h
    have hspec := genfact_fold_spec geo parseDate mappings source_df
      activity_cat_df activity_subcat_df provider_df currency_df date_df
      country_df company_df company country activity_cat activity_subcat
      reporting_year calc_method _ _ _ _ _ source_df.rows
      (create_empty_fact_table_structure dest_df) res h
    have hlen : res.length = source_df.rows.length := by
      have := hspec.1
      simpa [create_empty_fact_table_structure] using this
    refine ⟨hlen, ?_⟩
    have hids := genfact_fold_ids geo parseDate mappings source_df
      activity_cat_df activity_subcat_df provider_df currency_df date_df
      country_df company_df company country activity_cat activity_subcat
      reporting_year calc_method _ _ _ _ _ source_df.rows
      (create_empty_fact_table_structure dest_df) res
      (by simp [create_empty_fact_table_structure, seqIds]) h
    rw [hids, hlen]

/-- An all-null fact row with a given primary key, as produced by a run
whose lookups all miss (empty dimension tables, empty mapping). -/
def nullFactRow (i : ℤ) : FactRow :=
  { EmissionActivityID := i, CompanyID := none, CountryID := none,
    ActivityCategoryID := none, ActivitySubcategoryID := none,
    ScopeID := none, ActivityEmissionSourceID := none, UnitID := none,
    EmissionFactorID := none, DateKey := none }

/-- Witness for C1: a two-row source table; the run succeeds and the ids
are `[1, 2]`. -/
theorem C1_emission_activity_ids_witness :
    generate_fact (fun _ _ => 0) (fun _ => none) []
        ⟨["A"], [[("A", PyVal.vint 1)], [("A", PyVal.vint 2)]]⟩ [] [] []
        [] [] [] [] (some []) [] [] [] "c" "cty" "cat" "sub" 2024
        "Expense-based" = .ok [nullFactRow 1, nullFactRow 2] ∧
    ([nullFactRow 1, nullFactRow 2].length =
      (⟨["A"], [[("A", PyVal.vint 1)], [("A", PyVal.vint 2)]]⟩ :
        Table).rows.length) ∧
    ([nullFactRow 1, nullFactRow 2].map (·.EmissionActivityID) =
      seqIds 2) := by
  have h : generate_fact (fun _ _ => 0) (fun _ => none) []
      ⟨["A"], [[("A", PyVal.vint 1)], [("A", PyVal.vint 2)]]⟩ [] [] []
      [] [] [] [] (some []) [] [] [] "c" "cty" "cat" "sub" 2024
      "Expense-based" = .ok [nullFactRow 1, nullFactRow 2] := by rfl
  refine ⟨h, ?_⟩
  exact (C1_emission_activity_ids (fun _ _ => 0) (fun _ => none) []
    ⟨["A"], [[("A", PyVal.vint 1)], [("A", PyVal.vint 2)]]⟩ [] [] [] []
    [] [] [] (some []) [] [] [] "c" "cty" "cat" "sub" 2024
    "Expense-based").2 [nullFactRow 1, nullFactRow 2] h

/-! ## C2 -/

/-- C2 counterexample: the claim fails in two ways at explicit inputs.
First, a `ConsumptionAmount` entry with a present-but-null
`consumption_type` satisfies the claim's antecedent (no admissible
`consumption_type`), yet `find_emission_ids` raises `AttributeError` at
`None.lower()` (fact.py:30) instead of returning the null triple.
Second, even when resolution does fail quietly (a mapping with no
`ConsumptionAmount` entry), `float("abc")` on the mapped `PaidAmount`
cell raises `ValueError` and the generator aborts instead of "running to
completion with no error thrown". -/
theorem C2_counterexample :
    find_emission_ids [("ConsumptionAmount", ⟨none, none, none, none⟩)]
      "sub" [] [] [] "cty" "Expense-based" =
      .error "AttributeError: NoneType object has no attribute lower" ∧
    find_emission_ids [("PaidAmount", ⟨some "Price", none, none, none⟩)]
      "sub" [] [] [] "cty" "Expense-based" = .ok (none, none, none) ∧
    generate_fact (fun _ _ => 0) (fun _ => none)
      [("PaidAmount", ⟨some "Price", none, none, none⟩)]
      ⟨["Price"], [[("Price", PyVal.vstr "abc")]]⟩ [] [] [] [] [] [] []
      (some []) [] [] [] "c" "cty" "cat" "sub" 2024 "Expense-based" =
      .error "ValueError: could not convert string to float: abc" := by
  refine ⟨rfl, rfl, rfl⟩

/-- C2 as amended: if emission-source resolution fails QUIETLY for a
run — the mapping scan completes without finding an admissible
`consumption_type` (every entry whose fact-column name contains
`"ConsumptionAmount"` carries a non-null, inadmissible one; a
present-but-null `consumption_type` instead raises `AttributeError`), or
the scan succeeds but no emission-source row with the matching
subcategory id and name suffix exists — then `find_emission_ids` returns
the null triple without error, and whenever the generator completes (it
can still abort for unrelated reasons, e.g. a non-numeric amount cell) it
produces one fact row per source row with `ActivityEmissionSourceID`,
`UnitID` and `EmissionFactorID` all null. -/
theorem C2_emission_failure_degrades_to_null (geo : ℚ × ℚ → ℚ × ℚ → ℚ)
    (parseDate : PyVal → Option (ℕ × ℕ × ℕ)) (mappings : Mapping)
    (source_df : Table) (dest_df : List FactRow)
    (activity_cat_df : List CategoryRow)
    (activity_subcat_df : List SubcatRow) (scope_df : List ScopeRow)
    (activity_emission_source_df : List EmissionSourceRow)
    (provider_df : List ProviderRow) (unit_df : List UnitRow)
    (currency_df : Option (List CurrencyRow)) (date_df : List DateRow)
    (country_df : List CountryRow) (company_df : List CompanyRow)
    (company country activity_cat activity_subcat : String)
    (reporting_year : ℤ) (calc_method : String)
    (h : find_transformation mappings calc_method = .ok none ∨
      ∃ tr, find_transformation mappings calc_method = .ok (some tr) ∧
        get_emission_source_id_by_suffix activity_emission_source_df
          (lookup_subcat_id activity_subcat_df activity_subcat) tr =
          none) :
    find_emission_ids mappings activity_subcat activity_subcat_df
      activity_emission_source_df country_df country calc_method =
      .ok (none, none, none) ∧
    (∀ res : List FactRow,
      generate_fact geo parseDate mappings source_df dest_df
        activity_cat_df activity_subcat_df scope_df
        activity_emission_source_df provider_df unit_df currency_df
        date_df country_df company_df company country activity_cat
        activity_subcat reporting_year calc_method = .ok res →
      res.length = source_df.rows.length ∧
      ∀ r ∈ res, r.ActivityEmissionSourceID = none ∧ r.UnitID = none ∧
        r.EmissionFactorID = none) := by
  have hnull : find_emission_ids mappings activity_subcat
      activity_subcat_df activity_emission_source_df country_df country
      calc_method = .ok (none, none, none) := by
    rcases h with h | ⟨tr, h1, h2⟩
    · simp [find_emission_ids, h, bind, Except.bind, pure, Except.pure]
    · simp [find_emission_ids, h1, h2, bind, Except.bind, pure,
        Except.pure]
  refine ⟨hnull, ?_⟩
  intro res hgen
  simp only [generate_fact, bind, Except.bind] at hgen
  rw [hnull] at hgen
  dsimp only at hgen
  cases hpc : generate_fact_preloop_check mappings calc_method
      activity_cat activity_subcat
      (detect_airport_columns source_df.cols).1
      (detect_airport_columns source_df.cols).2 with
  | error e => rw [hpc] at hgen; exact Except.noConfusion hgen
  | ok v =>
  rw [hpc] at hgen
  dsimp only at hgen
  obtain ⟨hlen, tail, htail, hall⟩ := genfact_fold_spec geo parseDate
    mappings source_df activity_cat_df activity_subcat_df provider_df
    currency_df date_df country_df company_df company country
    activity_cat activity_subcat reporting_year calc_method _ _ _ _ _
    source_df.rows (create_empty_fact_table_structure dest_df) res hgen
  constructor
  · simpa [create_empty_fact_table_structure] using hlen
  · intro r hr
    have hrt : r ∈ tail := by
      rw [htail] at hr
      simpa [create_empty_fact_table_structure] using hr
    have h3 := hall r hrt
    simpa using h3

/-- Witness for C2: an empty mapping (no `ConsumptionAmount` entry) over a
one-row source; the run completes with the null triple and a single
all-null-triple fact row. -/
theorem C2_emission_failure_degrades_to_null_witness :
    (find_emission_ids [] "sub" [] [] [] "cty" "Expense-based" =
      .ok (none, none, none)) ∧
    ([nullFactRow 1].length = 1) ∧
    ((nullFactRow 1).ActivityEmissionSourceID = none ∧
      (nullFactRow 1).UnitID = none ∧
      (nullFactRow 1).EmissionFactorID = none) := by
  have hC := C2_emission_failure_degrades_to_null (fun _ _ => 0)
    (fun _ => none) [] ⟨["A"], [[("A", PyVal.vint 7)]]⟩ [] [] [] [] [] []
    [] (some []) [] [] [] "c" "cty" "cat" "sub" 2024 "Expense-based"
    (Or.inl rfl)
  have hgen : generate_fact (fun _ _ => 0) (fun _ => none) []
      ⟨["A"], [[("A", PyVal.vint 7)]]⟩ [] [] [] [] [] [] [] (some [])
      [] [] [] "c" "cty" "cat" "sub" 2024 "Expense-based" =
      .ok [nullFactRow 1] := by rfl
  exact ⟨hC.1, (hC.2 [nullFactRow 1] hgen).1,
    (hC.2 [nullFactRow 1] hgen).2 (nullFactRow 1) (by simp)⟩

/-! ## C10 -/

/-- C10: when emission resolution succeeds but the ISO2-code lookup for
the run's country finds no row, `find_emission_ids` returns an
`EmissionFactorID` equal to the literal string `"None_"` concatenated with
the resolved emission-source name — not null and not an error — and every
fact row of a completed run carries that string. -/
theorem C10_none_emission_factor (geo : ℚ × ℚ → ℚ × ℚ → ℚ)
    (parseDate : PyVal → Option (ℕ × ℕ × ℕ)) (mappings : Mapping)
    (source_df : Table) (dest_df : List FactRow)
    (activity_cat_df : List CategoryRow)
    (activity_subcat_df : List SubcatRow) (scope_df : List ScopeRow)
    (activity_emission_source_df : List EmissionSourceRow)
    (provider_df : List ProviderRow) (unit_df : List UnitRow)
    (currency_df : Option (List CurrencyRow)) (date_df : List DateRow)
    (country_df : List CountryRow) (company_df : List CompanyRow)
    (company country activity_cat activity_subcat : String)
    (reporting_year : ℤ) (calc_method : String) (esid : ℤ)
    (uid : Option ℤ) (fid : Option String)
    (h1 : lookup_country_iso2 country_df country = none)
    (h2 : find_emission_ids mappings activity_subcat activity_subcat_df
      activity_emission_source_df country_df country calc_method =
      .ok (some esid, uid, fid)) :
    fid = some ("None_" ++
      fstrOpt (lookup_es_name activity_emission_source_df esid)) ∧
    fid ≠ none ∧
    (∀ res : List FactRow,
      generate_fact geo parseDate mappings source_df dest_df
        activity_cat_df activity_subcat_df scope_df
        activity_emission_source_df provider_df unit_df currency_df
        date_df country_df company_df company country activity_cat
        activity_subcat reporting_year calc_method = .ok res →
      ∀ r ∈ res, r.EmissionFactorID = fid) := by
  have hfid : fid = some ("None_" ++
      fstrOpt (lookup_es_name activity_emission_source_df esid)) := by
    unfold find_emission_ids at h2
    rw [h1] at h2
    simp only [bind, Except.bind] at h2
    cases htr : find_transformation mappings calc_method with
    | error e => rw [htr] at h2; exact absurd h2 (by simp)
    | ok tro =>
    rw [htr] at h2
    dsimp only at h2
    cases tro with
    | none => exact absurd h2 (by simp [pure, Except.pure])
    | some tr =>
        dsimp only at h2
        cases hes : get_emission_source_id_by_suffix
            activity_emission_source_df
            (lookup_subcat_id activity_subcat_df activity_subcat) tr with
        | none =>
            rw [hes] at h2
            exact absurd h2 (by simp [pure, Except.pure])
        | some e =>
            rw [hes] at h2
            dsimp only at h2
            by_cases he0 : e = 0
            · rw [if_pos he0] at h2
              exact absurd h2 (by simp [pure, Except.pure])
            · rw [if_neg he0] at h2
              simp only [pure, Except.pure, Except.ok.injEq] at h2
              rw [Prod.mk.injEq, Prod.mk.injEq] at h2
              obtain ⟨hA, _, hC⟩ := h2
              have hesid : e = esid := by simpa using hA
              subst hesid
              rw [← hC]
              show some (fstrCell none ++ ("_" ++ _)) = _
              rw [← String.append_assoc]
              rfl
  refine ⟨hfid, by rw [hfid]; simp, ?_⟩
  intro res hgen
  simp only [generate_fact, bind, Except.bind] at hgen
  rw [h2] at hgen
  dsimp only at hgen
  cases hpc : generate_fact_preloop_check mappings calc_method
      activity_cat activity_subcat
      (detect_airport_columns source_df.cols).1
      (detect_airport_columns source_df.cols).2 with
  | error e => rw [hpc] at hgen; exact Except.noConfusion hgen
  | ok v =>
  rw [hpc] at hgen
  dsimp only at hgen
  obtain ⟨_, tail, htail, hall⟩ := genfact_fold_spec geo parseDate
    mappings source_df activity_cat_df activity_subcat_df provider_df
    currency_df date_df country_df company_df company country
    activity_cat activity_subcat reporting_year calc_method _ _ _ _ _
    source_df.rows (create_empty_fact_table_structure dest_df) res hgen
  intro r hr
  have hrt : r ∈ tail := by
    rw [htail] at hr
    simpa [create_empty_fact_table_structure] using hr
  exact (hall r hrt).2.2

/-- The fact row produced by the C10 witness run: emission triple resolved
(`source id 3`, `unit 11`) but the country table empty, so the emission
factor is the literal `"None_"` prefix on the source name. -/
def c10Row : FactRow :=
  { EmissionActivityID := 1, CompanyID := none, CountryID := none,
    ActivityCategoryID := none, ActivitySubcategoryID := some 7,
    ScopeID := none, ActivityEmissionSourceID := some 3,
    UnitID := some 11,
    EmissionFactorID := some "None_Air Travel Distance", DateKey := none }

/-- Witness for C10: a run with a resolvable emission source and an empty
country table. -/
theorem C10_none_emission_factor_witness :
    ((some "None_Air Travel Distance" : Option String) =
      some ("None_" ++
        fstrOpt (lookup_es_name [⟨3, 7, "Air Travel Distance", 11⟩] 3))) ∧
    ((some "None_Air Travel Distance" : Option String) ≠ none) ∧
    (c10Row.EmissionFactorID = some "None_Air Travel Distance") := by
  have hC := C10_none_emission_factor (fun _ _ => 0) (fun _ => none)
    [("ConsumptionAmount", ⟨none, none, none, some "Distance"⟩)]
    ⟨["A"], [[("A", PyVal.vint 1)]]⟩ [] [] [⟨7, "Air Travel"⟩] []
    [⟨3, 7, "Air Travel Distance", 11⟩] [] [] (some []) [] [] [] "c"
    "cty" "Business Travel" "Air Travel" 2024 "Consumption-based" 3
    (some 11) (some "None_Air Travel Distance") rfl rfl
  have hgen : generate_fact (fun _ _ => 0) (fun _ => none)
      [("ConsumptionAmount", ⟨none, none, none, some "Distance"⟩)]
      ⟨["A"], [[("A", PyVal.vint 1)]]⟩ [] [] [⟨7, "Air Travel"⟩] []
      [⟨3, 7, "Air Travel Distance", 11⟩] [] [] (some []) [] [] [] "c"
      "cty" "Business Travel" "Air Travel" 2024 "Consumption-based" =
      .ok [c10Row] := by rfl
  exact ⟨hC.1, hC.2.1, hC.2.2 [c10Row] hgen c10Row (by simp)⟩

/-! ## C7 -/

/-- The C7 failing mapping: well-formed everywhere except that the
`CurrencyID` entry has a null `source_column`. -/
def c7Mapping : Mapping :=
  [("DateKey", ⟨none, none, none, none⟩),
   ("UnitID", ⟨none, none, none, none⟩),
   ("CurrencyID", ⟨none, none, none, none⟩)]

/-- The C7 source table (columns only; the defect is mapping-side). -/
def c7Source : Table := ⟨["Price"], []⟩

/-- The C7 destination tables (all empty). -/
def c7Dest : DestTables :=
  { D_Country := [], D_Company := [], D_Currency := [],
    DE1_ActivityEmissionSourceProvi := [], DE1_Unit := [],
    DE1_ActivityCategory := [], DE1_ActivitySubcategory := [],
    DE1_Scopes := [], DE1_ActivityEmissionSource := [],
    FE1_EmissionActivityData := [] }

/-- C7 — the code, evaluated at the failing input: with a `CurrencyID`
mapping whose `source_column` is null, `transform_D_Currency` falls
through without a `return` and yields Python `None` instead of a currency
table, and `transform_data` then aborts with `AttributeError` when the
writer dereferences the `None` table — so the run yields no set of eleven
output tables at all, contradicting the claim that every mapping
(including this one) still produces all eleven tables. -/
theorem C7_currency_table_none :
    transform_D_Currency c7Mapping c7Source [] 0 = .ok none ∧
    transform_data (fun _ _ => 0) (fun _ => none) 0 c7Source c7Mapping
      "Comp" "Ctry" "Expense-based" "Cat" "Sub" c7Dest 2024 =
      .error "AttributeError: NoneType object has no attribute to_excel" := by
  constructor
  · rfl
  · rfl
